import Mathlib

/-!
# Focus Item Generation & Validation Engine — a shallow embedding

This file embeds the core of `backend/app/llm_client.py` (the focus-item
generation, validation, retry/fallback machinery) in Lean 4 and proves
properties about it.

Python values are modelled by the inductive `PyVal` (JSON-shaped dynamic
values).  Python code that can raise is modelled in `Except PyErr`; code that
cannot raise is modelled by plain functions.  Machine integers are modelled
by `Int` (Python ints are unbounded, so no wrap-around is needed).  The
external LLM client (`_claude_json_haiku`, which catches every exception and
returns either text or an `"Error: ..."` string, hence never raises) is
modelled as an oracle `client : Nat → String` indexed by the retry counter,
and `json.loads` — only ever applied to strings that start with `"{"` — as an
oracle `loads : String → Option PyVal`.

Scope notes on text primitives:
* `str.lower` is modelled for ASCII letters and the precomposed accented
  Latin letters that occur in this codebase's string constants;
* `unicodedata.normalize("NFKD", ·)` followed by dropping combining marks is
  modelled as a diacritic-stripping character map over the same alphabet;
* `str.strip` / `str.split()` strip on the ASCII whitespace characters;
* `hash` (used only to build an idempotency key whose value nothing ever
  inspects) is modelled as the constant 0, since CPython's string hash is
  process-seeded.
-/

namespace PUMi

/-- Dynamic (JSON-shaped) Python values. -/
inductive PyVal where
  | none : PyVal
  | bool : Bool → PyVal
  | int : Int → PyVal
  | str : String → PyVal
  | list : List PyVal → PyVal
  | dict : List (String × PyVal) → PyVal

/-- Python dictionaries with string keys, in insertion order. -/
abbrev PyDict := List (String × PyVal)

/-- Python exceptions that the embedded code can raise. -/
inductive PyErr where
  | attributeError : PyErr
  | typeError : PyErr
  | runtimeError : String → PyErr
deriving DecidableEq

/-- Python truthiness (`bool(x)`). -/
def pyTruthy : PyVal → Bool
  | .none => false
  | .bool b => b
  | .int i => i != 0
  | .str s => s ≠ ""
  | .list l => !l.isEmpty
  | .dict d => !d.isEmpty

/-- `d.get(k, dflt)` on a value statically known to be a dict (total). -/
def pyGetD (d : PyDict) (k : String) (dflt : PyVal) : PyVal :=
  match d.find? (fun kv => kv.1 = k) with
  | some kv => kv.2
  | Option.none => dflt

/-- `v.get(k, dflt)` on a dynamic value: raises `AttributeError` when the
receiver is not a dict (as `.get` does on str/int/list/None in Python). -/
def mGet (v : PyVal) (k : String) (dflt : PyVal) : Except PyErr PyVal :=
  match v with
  | .dict d => .ok (pyGetD d k dflt)
  | _ => .error .attributeError

/-- `k in d` for a dict. -/
def hasKey (d : PyDict) (k : String) : Bool :=
  d.any (fun kv => kv.1 = k)

/-- `d[k] = v`: update the (first) binding of `k`, or append it. -/
def dset (d : PyDict) (k : String) (v : PyVal) : PyDict :=
  match d with
  | [] => [(k, v)]
  | kv :: rest => if kv.1 = k then (k, v) :: rest else kv :: dset rest k v

/-- `d.setdefault(k, dflt)` (the mutation part). -/
def pySetdefault (d : PyDict) (k : String) (dflt : PyVal) : PyDict :=
  if hasKey d k then d else d ++ [(k, dflt)]

/-- `len(v)`: defined for str, list and dict; `TypeError` otherwise. -/
def pyLen : PyVal → Except PyErr Nat
  | .str s => .ok s.length
  | .list l => .ok l.length
  | .dict d => .ok d.length
  | _ => .error .typeError

/-- `for x in v`: iterating a list yields its elements, a string its
characters (as 1-character strings), a dict its keys; `TypeError` otherwise. -/
def pyIter : PyVal → Except PyErr (List PyVal)
  | .list l => .ok l
  | .str s => .ok (s.data.map fun c => .str (String.mk [c]))
  | .dict d => .ok (d.map fun kv => .str kv.1)
  | _ => .error .typeError

/-- `v == "lit"` (Python equality against a string literal). -/
def pyEqStr (v : PyVal) (lit : String) : Bool :=
  match v with
  | .str s => s = lit
  | _ => false

/-- `v < k` for an int literal `k`; Python compares bools as ints and raises
`TypeError` for str/list/dict/None. -/
def pyLtInt (v : PyVal) (k : Int) : Except PyErr Bool :=
  match v with
  | .int i => .ok (i < k)
  | .bool b => .ok ((if b then (1 : Int) else 0) < k)
  | _ => .error .typeError

/-- `v >= k` for an int literal `k` (same typing rules as `pyLtInt`). -/
def pyGeInt (v : PyVal) (k : Int) : Except PyErr Bool :=
  match v with
  | .int i => .ok (k ≤ i)
  | .bool b => .ok (k ≤ (if b then (1 : Int) else 0))
  | _ => .error .typeError

/-- Reduction lemmas for the `Except` monad used throughout the proofs. -/
@[simp] lemma ok_bind {α β : Type} (a : α) (f : α → Except PyErr β) :
    (Except.ok a >>= f) = f a := rfl

@[simp] lemma error_bind {α β : Type} (e : PyErr) (f : α → Except PyErr β) :
    ((Except.error e : Except PyErr α) >>= f) = .error e := rfl

/-! ## String primitives -/

/-- Python ASCII whitespace (`str.strip` / `str.split()` default class;
the rarely-seen Unicode space characters are outside the modelled scope). -/
def isPySpace (c : Char) : Bool :=
  c = ' ' || c = '\t' || c = '
' || c = '\r' || c = '\x0b' || c = '\x0c'

/-- `str.strip()`. -/
def pyStrip (s : String) : String :=
  String.mk (((s.data.dropWhile isPySpace).reverse.dropWhile isPySpace).reverse)

/-- `str.lower()` for ASCII letters and the precomposed accented Latin
letters appearing in this codebase. -/
def pyLowerChar (c : Char) : Char :=
  if 'A' ≤ c ∧ c ≤ 'Z' then Char.ofNat (c.toNat + 32)
  else if c = 'Á' then 'á' else if c = 'É' then 'é' else if c = 'Í' then 'í'
  else if c = 'Ó' then 'ó' else if c = 'Ö' then 'ö' else if c = 'Ő' then 'ő'
  else if c = 'Ú' then 'ú' else if c = 'Ü' then 'ü' else if c = 'Ű' then 'ű'
  else c

def pyLower (s : String) : String :=
  String.mk (s.data.map pyLowerChar)

/-- NFKD decomposition followed by removal of combining marks, restricted to
the precomposed accented Latin letters of this codebase (both cases);
identity on every other character. -/
def stripDiacritic (c : Char) : Char :=
  if c = 'á' then 'a' else if c = 'é' then 'e' else if c = 'í' then 'i'
  else if c = 'ó' then 'o' else if c = 'ö' then 'o' else if c = 'ő' then 'o'
  else if c = 'ú' then 'u' else if c = 'ü' then 'u' else if c = 'ű' then 'u'
  else if c = 'Á' then 'A' else if c = 'É' then 'E' else if c = 'Í' then 'I'
  else if c = 'Ó' then 'O' else if c = 'Ö' then 'O' else if c = 'Ő' then 'O'
  else if c = 'Ú' then 'U' else if c = 'Ü' then 'U' else if c = 'Ű' then 'U'
  else c

/-- `pat in s` (substring containment). -/
def containsSub (pat s : String) : Bool :=
  s.data.tails.any (fun t => pat.data.isPrefixOf t)

/-- `s.startswith(pre)`. -/
def strStartsWith (s pre : String) : Bool :=
  pre.data.isPrefixOf s.data

/-- `s.isascii()`. -/
def isAsciiStr (s : String) : Bool :=
  s.data.all (fun c => c.toNat < 128)

/-- Word counter behind `len(s.split())`: `inWord` records whether the
previous character was part of a word. -/
def wordsAux : List Char → Bool → Nat
  | [], _ => 0
  | c :: cs, inW =>
    if isPySpace c then wordsAux cs false
    else (if inW then 0 else 1) + wordsAux cs true

/-- `len(s.split())`. -/
def wordCount (s : String) : Nat :=
  wordsAux s.data false

/-- `s.split(sep)[0]` for a non-empty separator: the text before the first
occurrence of `sep` (the whole string when `sep` does not occur). -/
def splitFirst (s sep : String) : String :=
  match s.splitOn sep with
  | [] => s
  | x :: _ => x

/-- `repr` for the modelled values.  For strings CPython's `repr` is
approximated by single quotes around the raw text (faithful for strings
containing no quote, backslash or control character — the only ones any
modelled string ever contains). -/
def pyReprAux : PyVal → String
  | .none => "None"
  | .bool true => "True"
  | .bool false => "False"
  | .int i => toString i
  | .str s => "\x27" ++ s ++ "\x27"
  | .list l => "[" ++ String.intercalate ", " (reprList l) ++ "]"
  | .dict d => "\x7b" ++ String.intercalate ", " (reprDict d) ++ "\x7d"
where
  reprList : List PyVal → List String
    | [] => []
    | v :: vs => pyReprAux v :: reprList vs
  reprDict : List (String × PyVal) → List String
    | [] => []
    | (k, v) :: kvs => ("\x27" ++ k ++ "\x27: " ++ pyReprAux v) :: reprDict kvs

/-- `str(v)`. -/
def pyStr : PyVal → String
  | .str s => s
  | v => pyReprAux v

/-! ## Canonical schema constants (llm_client.py, lines 586–655) -/

def VALID_KINDS : List String :=
  ["content", "quiz", "checklist", "upload_review", "translation", "cards",
   "roleplay", "writing", "briefing", "feedback", "smart_lesson"]

/-- Kind selection mapping — backend decides, not LLM. -/
def KIND_FROM_PRACTICE_TYPE : List (String × String) :=
  [("translation", "translation"),
   ("exercise", "roleplay"),
   ("roleplay", "roleplay"),
   ("dialogue", "roleplay"),
   ("quiz", "quiz"),
   ("cards", "cards"),
   ("flashcard", "cards"),
   ("writing", "writing"),
   ("speaking", "checklist"),
   ("practice_speaking", "checklist"),
   ("task", "checklist")]

/-- Validation rules per kind, as PyVal dicts (`min_chars`, `min_items`,
`input_type`). -/
def KIND_VALIDATION_RULES : List (String × PyDict) :=
  [("content", [("min_chars", .int 0), ("min_items", .int 0), ("input_type", .str "none")]),
   ("translation", [("min_chars", .int 10), ("min_items", .int 1), ("input_type", .str "multi_text")]),
   ("quiz", [("min_chars", .int 0), ("min_items", .int 1), ("input_type", .str "choice")]),
   ("cards", [("min_chars", .int 0), ("min_items", .int 3), ("input_type", .str "none")]),
   ("roleplay", [("min_chars", .int 80), ("min_items", .int 1), ("input_type", .str "text")]),
   ("writing", [("min_chars", .int 120), ("min_items", .int 1), ("input_type", .str "text")]),
   ("checklist", [("min_chars", .int 60), ("min_items", .int 1), ("input_type", .str "text")]),
   ("upload_review", [("min_chars", .int 0), ("min_items", .int 1), ("input_type", .str "file")]),
   ("briefing", [("min_chars", .int 0), ("min_items", .int 0), ("input_type", .str "none")]),
   ("feedback", [("min_chars", .int 0), ("min_items", .int 0), ("input_type", .str "none")]),
   ("smart_lesson", [("min_chars", .int 0), ("min_items", .int 1), ("input_type", .str "choice")])]

/-- `KIND_VALIDATION_RULES.get(kind, {})`. -/
def kindRules (kind : String) : PyDict :=
  match KIND_VALIDATION_RULES.find? (fun kv => kv.1 = kind) with
  | some kv => kv.2
  | Option.none => []

def GENERIC_FILLER_PATTERNS_HU : List String :=
  ["ez egy olvasando tartalom",
   "a temaban",
   "ismerkedjunk meg",
   "attekintjuk a temat",
   "roviden osszefoglalja",
   "altalanos attekintes",
   "alapokat ismerjuk meg"]

def GENERIC_FILLER_PATTERNS_EN : List String :=
  ["this is a reading material",
   "about the topic",
   "let\x27s get to know",
   "we will overview",
   "briefly summarizes",
   "general overview"]

def PLACEHOLDER_OPTIONS : List String := ["a", "b", "c", "d", "1", "2", "3"]

/-- Forbidden patterns — tasks that cannot be verified via text input. -/
def FORBIDDEN_PATTERNS : List String :=
  ["hangosan", "mondd ki", "ismételd el", "mondd utánam", "hallgasd meg",
   "mondd fel", "mond ki", "olvasd fel", "speak aloud", "say out loud",
   "repeat after", "listen and repeat"]

/-! ## Kind resolution and small validators (lines 658–723, 1662–1693) -/

/-- `_determine_item_kind(item_type, practice_type)`. -/
def determine_item_kind (item_type : String) (practice_type : Option String) : String :=
  if item_type = "briefing" then "briefing"
  else if item_type = "feedback" then "feedback"
  else if item_type = "smart_lesson" then "smart_lesson"
  else if item_type = "quiz" then "quiz"
  else if item_type = "flashcard" then "cards"
  else if item_type = "lesson" then "content"
  else if item_type = "task" then "checklist"
  else
    match practice_type with
    | some p =>
      if p ≠ "" then
        let pt := pyStrip (pyLower p)
        match KIND_FROM_PRACTICE_TYPE.find? (fun kv => kv.1 = pt) with
        | some kv => kv.2
        | Option.none => "checklist"
      else "checklist"
    | Option.none => "checklist"

/-- `_contains_forbidden_pattern(text)`: returns the first matched pattern;
raises `AttributeError` on a truthy non-string (Python's `text.lower()`). -/
def contains_forbidden_pattern (v : PyVal) : Except PyErr (Option String) :=
  if ¬ pyTruthy v then .ok Option.none
  else match v with
    | .str s =>
      let tl := pyLower s
      .ok (FORBIDDEN_PATTERNS.find? (fun pat => containsSub (pyLower pat) tl))
    | _ => .error .attributeError

/-- `_normalize_for_match(text)` on a string. -/
def normalize_for_match (s : String) : String :=
  pyStrip (pyLower (String.mk (s.data.map stripDiacritic)))

/-- `_normalize_for_match` applied to a dynamic value: `""` on falsy input,
`TypeError` on a truthy non-string (`unicodedata.normalize` rejects it). -/
def normalize_for_match_v (v : PyVal) : Except PyErr String :=
  if ¬ pyTruthy v then .ok ""
  else match v with
    | .str s => .ok (normalize_for_match s)
    | _ => .error .typeError

/-- `_is_generic_summary(text, lang)` on a dynamic summary value. -/
def is_generic_summary_v (v : PyVal) (lang : String) : Except PyErr Bool := do
  let norm ← normalize_for_match_v v
  let patterns :=
    if strStartsWith (pyLower (if lang = "" then "hu" else lang)) "hu"
    then GENERIC_FILLER_PATTERNS_HU else GENERIC_FILLER_PATTERNS_EN
  pure (patterns.any (fun pat => containsSub pat norm))

/-- `len(set(l))` for a list of strings: the number of distinct elements. -/
def distinctCount : List String → Nat
  | [] => 0
  | x :: xs => (if x ∈ xs then 0 else 1) + distinctCount xs

/-- `_options_invalid(options)`. -/
def options_invalid (options : PyVal) : Except PyErr Bool := do
  if ¬ pyTruthy options then pure true
  else do
    let n ← pyLen options
    if n ≠ 3 then pure true
    else do
      let elems ← pyIter options
      let normalized ← (elems.filter pyTruthy).mapM normalize_for_match_v
      if normalized.any (fun o => o ∈ PLACEHOLDER_OPTIONS) then pure true
      else if distinctCount normalized ≠ normalized.length then pure true
      else pure false

/-- `_is_generic_smart_lesson(content)` (lines 1662–1682): rejects empty or
placeholder smart-lesson content. -/
def is_generic_smart_lesson (content : PyVal) : Except PyErr (Bool × String) := do
  let hook ← mGet content "hook" (.str "")
  let hookBad ←
    if ¬ pyTruthy hook then pure true
    else match hook with
      | .str s => pure (decide ((pyStrip s).length < 10))
      | _ => .error .attributeError
  if hookBad then pure (true, "hook is empty or too short")
  else do
    let check := fun (task_key : String) => do
      let task ← mGet content task_key (.dict [])
      match task with
      | .dict _ => do
        let options ← mGet task "options" (.list [])
        let elems ← pyIter options
        let real_opts := elems.filter fun o =>
          match o with
          | .str s => decide ((pyStrip s).length > 3)
          | _ => false
        if real_opts.length < 2 then
          pure (some (true, task_key ++ ".options must have at least 2 real options (not placeholders)"))
        else pure Option.none
      | _ => pure (some (true, task_key ++ " must be an object"))
    let r1 ← check "micro_task_1"
    match r1 with
    | some r => pure r
    | Option.none => do
      let r2 ← check "micro_task_2"
      match r2 with
      | some r => pure r
      | Option.none => pure (false, "")

/-! ## The item validator `_validate_focus_item` (lines 726–960) -/

def REQUIRED_FIELDS : List String :=
  ["schema_version", "kind", "idempotency_key", "title", "instructions_md",
   "content", "validation"]

/-- Scan a field list for the first forbidden pattern. -/
def scanForbidden : List PyVal → Except PyErr (Option String)
  | [] => .ok Option.none
  | f :: rest => do
    match (← contains_forbidden_pattern f) with
    | some pat => pure (some pat)
    | Option.none => scanForbidden rest

/-- `correct_idx is None or correct_idx < 0 or correct_idx >= n`. -/
def indexInvalid (ci : PyVal) (n : Nat) : Except PyErr Bool :=
  match ci with
  | .none => .ok true
  | _ => do
    if (← pyLtInt ci 0) then pure true
    else pyGeInt ci (n : Int)

/-- The field list scanned for forbidden patterns in non-`content` items
(`instructions_md`, `title`, `subtitle`, stringified `content.prompt`,
`content.scene_title`, `content.proof_required`, plus `content.steps` when it
is a list); raises when `content` is not a dict. -/
def forbidden_check_fields (item : PyDict) : Except PyErr (List PyVal) := do
  let instructions := pyGetD item "instructions_md" (.str "")
  let title := pyGetD item "title" (.str "")
  let subtitle := pyGetD item "subtitle" (.str "")
  let content := pyGetD item "content" (.dict [])
  let p1 ← mGet content "prompt" (.str "")
  let p2 ← mGet content "scene_title" (.str "")
  let p3 ← mGet content "proof_required" (.str "")
  let steps ← mGet content "steps" PyVal.none
  pure ([instructions, title, subtitle,
    .str (pyStr p1), .str (pyStr p2), .str (pyStr p3)] ++
    (match steps with | .list l => l | _ => []))

/-- The per-question loop of the quiz branch (1-based index for messages). -/
def checkQuestions : List PyVal → Nat → Except PyErr (Bool × String)
  | [], _ => .ok (true, "")
  | q :: rest, i => do
    let opts ← mGet q "options" (.list [])
    if (← options_invalid opts) then
      pure (false, "Question " ++ toString i ++ " has invalid options")
    else do
      let ci0 ← mGet q "correct_index" PyVal.none
      let ci ← match ci0 with
        | .none => mGet q "answer_index" PyVal.none
        | _ => pure ci0
      let n ← pyLen opts
      if (← indexInvalid ci n) then
        pure (false, "Question " ++ toString i ++ " has invalid correct_index")
      else do
        let qa ← mGet q "q" PyVal.none
        let qb ← mGet q "question" PyVal.none
        let qtext := if pyTruthy qa then qa else qb
        if ¬ pyTruthy qtext then
          pure (false, "Question " ++ toString i ++ " missing question text")
        else do
          let ex ← mGet q "explanation" PyVal.none
          if ¬ pyTruthy ex then
            pure (false, "Question " ++ toString i ++ " missing explanation")
          else checkQuestions rest (i + 1)

/-- Quiz branch: new `questions` array format or legacy single question. -/
def validate_quiz (content : PyVal) : Except PyErr (Bool × String) := do
  let questions ← mGet content "questions" (.list [])
  if pyTruthy questions then do
    let n ← pyLen questions
    if n < 4 ∨ n > 6 then
      pure (false, "Quiz must have 4-6 questions, got " ++ toString n)
    else checkQuestions (← pyIter questions) 1
  else do
    let choices ← mGet content "choices" (.list [])
    let cn ← pyLen choices
    if cn < 3 then pure (false, "Quiz must have at least 3 choices")
    else do
      let ci ← mGet content "correct_index" PyVal.none
      if (← indexInvalid ci cn) then
        pure (false, "Quiz has invalid correct_index")
      else pure (true, "")

/-- `content` branch, `content_type == "language_nonlatin_beginner"` flow. -/
def validate_content_nonlatin (content : PyVal) : Except PyErr (Bool × String) := do
  let lesson_flow ← mGet content "lesson_flow" (.list [])
  let n ← if pyTruthy lesson_flow then pyLen lesson_flow else pure 0
  if ¬ pyTruthy lesson_flow ∨ n < 1 then
    pure (false, "Non-Latin beginner lesson needs lesson_flow array")
  else if n > 7 then
    pure (false, "lesson_flow too long (" ++ toString n ++ "), max 7")
  else do
    let elems ← pyIter lesson_flow
    let rec loop : List PyVal → Nat → Except PyErr (Bool × String)
      | [], _ => pure (true, "")
      | fi :: rest, idx => do
        if ¬ pyTruthy (← mGet fi "title_hu" PyVal.none) then
          pure (false, "lesson_flow[" ++ toString idx ++ "] missing title_hu")
        else if ¬ pyTruthy (← mGet fi "body_md" PyVal.none) then
          pure (false, "lesson_flow[" ++ toString idx ++ "] missing body_md")
        else loop rest (idx + 1)
    loop elems 0

/-- `content` branch, `content_type == "language_lesson"` flow. -/
def validate_content_language (content : PyVal) : Except PyErr (Bool × String) := do
  let introduction ← mGet content "introduction" (.str "")
  let introShort ←
    if ¬ pyTruthy introduction then pure true
    else match introduction with
      | .str s => pure (decide (wordCount s < 15))
      | _ => .error .attributeError
  if introShort then
    pure (false, "Language lesson introduction too short (min 15 words)")
  else do
    let vocab_table ← mGet content "vocabulary_table" (.list [])
    let vn ← pyLen vocab_table
    if vn < 3 then
      pure (false, "Language lesson needs 3+ vocabulary items, got " ++ toString vn)
    else do
      let grammar ← mGet content "grammar_explanation" (.dict [])
      let grammarBad ←
        if ¬ pyTruthy grammar then pure true
        else do pure (!(pyTruthy (← mGet grammar "explanation" PyVal.none)))
      if grammarBad then
        pure (false, "Language lesson missing grammar_explanation")
      else do
        let grammar_examples ← mGet grammar "examples" (.list [])
        if (← pyLen grammar_examples) < 1 then
          pure (false, "Language lesson grammar needs 1+ example")
        else do
          let dialogues ← mGet content "dialogues" (.list [])
          if (← pyLen dialogues) < 1 then
            pure (false, "Language lesson needs at least 1 dialogue")
          else do
            let ds ← pyIter dialogues
            let rec loop : List PyVal → Except PyErr (Bool × String)
              | [] => pure (true, "")
              | d :: rest => do
                let lines ← mGet d "lines" (.list [])
                if (← pyLen lines) < 2 then
                  pure (false, "Dialogue must have 2+ lines")
                else loop rest
            loop ds

/-- `content` branch, standard (non-language) flow. -/
def validate_content_standard (content : PyVal) : Except PyErr (Bool × String) := do
  let summary ← mGet content "summary" (.str "")
  let key_points ← mGet content "key_points" (.list [])
  let exampleV ← mGet content "example" (.str "")
  let micro_task ← mGet content "micro_task" (.dict [])
  let common_mistakes ← mGet content "common_mistakes" (.list [])
  let body_md ← mGet content "body_md" PyVal.none
  if ¬ pyTruthy summary ∧ ¬ pyTruthy body_md then
    pure (false, "Content must have summary or body_md")
  else do
    let generic ←
      if pyTruthy summary then is_generic_summary_v summary "hu" else pure false
    if generic then pure (false, "Content summary too generic")
    else do
      let kpBad ←
        if pyTruthy key_points then do
          let n ← pyLen key_points
          if n < 3 ∨ n > 7 then
            pure (some ("Content must have 3-7 key_points, got " ++ toString n))
          else do
            let kps ← pyIter key_points
            if kps.any (fun kp => decide ((pyStr kp).length < 10)) then
              pure (some "Content key_points too short")
            else pure Option.none
        else pure Option.none
      match kpBad with
      | some msg => pure (false, msg)
      | Option.none =>
        if pyTruthy exampleV ∧ (pyStr exampleV).length < 10 then
          pure (false, "Content example too short")
        else do
          let mtBad ←
            if pyTruthy micro_task then
              match micro_task with
              | .dict _ => do
                let instr ← mGet micro_task "instruction" PyVal.none
                let eo ← mGet micro_task "expected_output" PyVal.none
                if ¬ pyTruthy instr ∨ ¬ pyTruthy eo then
                  pure (some "Content micro_task missing fields")
                else pure Option.none
              | _ => pure (some "Content micro_task must be an object")
            else pure Option.none
          match mtBad with
          | some msg => pure (false, msg)
          | Option.none =>
            if pyTruthy common_mistakes then do
              let n ← pyLen common_mistakes
              if n < 3 ∨ n > 5 then
                pure (false, "Content common_mistakes must have 3-5 items")
              else pure (true, "")
            else pure (true, "")

/-- `content` branch dispatch on `content_type`. -/
def validate_content (content : PyVal) : Except PyErr (Bool × String) := do
  let content_type ← mGet content "content_type" (.str "")
  if pyEqStr content_type "language_nonlatin_beginner" then
    validate_content_nonlatin content
  else if pyEqStr content_type "language_lesson" then
    validate_content_language content
  else validate_content_standard content

def validate_checklist (content : PyVal) : Except PyErr (Bool × String) := do
  let items ← mGet content "items" (.list [])
  let steps ← mGet content "steps" (.list [])
  if pyTruthy items then do
    let n ← pyLen items
    if n < 5 ∨ n > 9 then pure (false, "Checklist must have 5-9 items")
    else do
      let elems ← pyIter items
      let rec loop : List PyVal → Except PyErr (Bool × String)
        | [] => pure (true, "")
        | it :: rest => do
          let text := match it with
            | .dict d => pyGetD d "text" PyVal.none
            | _ => it
          if ¬ pyTruthy text ∨ (pyStr text).length < 8 then
            pure (false, "Checklist item too short")
          else loop rest
      loop elems
  else if pyTruthy steps then do
    if (← pyLen steps) < 3 then
      pure (false, "Checklist must have at least 3 steps")
    else pure (true, "")
  else pure (false, "Checklist missing items")

def validate_upload_review (content : PyVal) : Except PyErr (Bool × String) := do
  let prompt ← mGet content "prompt" (.str "")
  let rubric ← mGet content "rubric" (.list [])
  if ¬ pyTruthy prompt then pure (false, "Upload review missing prompt")
  else if pyTruthy rubric then do
    if (← pyLen rubric) < 4 then pure (false, "Upload review rubric too short")
    else pure (true, "")
  else pure (true, "")

def validate_roleplay (content : PyVal) : Except PyErr (Bool × String) := do
  if ¬ pyTruthy (← mGet content "opening_line" PyVal.none) then
    pure (false, "Roleplay must have opening_line")
  else do
    let turn_limit ← mGet content "turn_limit" (.int 0)
    /- `if turn_limit < 6 or turn_limit > 12: pass` — the comparisons still
    evaluate (and can raise `TypeError`), the outcome is discarded. -/
    let lt ← pyLtInt turn_limit 6
    if lt then pure (true, "")
    else do
      let _ ← pyGeInt turn_limit 13
      pure (true, "")

def validate_briefing (content : PyVal) : Except PyErr (Bool × String) := do
  let situation ← mGet content "situation" (.str "")
  let outcome ← mGet content "outcome" (.str "")
  let sitBad ←
    if ¬ pyTruthy situation then pure true
    else do pure (decide ((← pyLen situation) < 20))
  if sitBad then pure (false, "Briefing must have situation (min 20 chars)")
  else if ¬ pyTruthy outcome then pure (false, "Briefing must have outcome")
  else pure (true, "")

def validate_feedback (content : PyVal) : Except PyErr (Bool × String) := do
  let corrections ← mGet content "corrections" (.list [])
  let improved ← mGet content "improved_version" (.str "")
  let placeholder ← mGet content "placeholder" (.bool false)
  if ¬ pyTruthy placeholder then do
    let corrBad ←
      if ¬ pyTruthy corrections then pure true
      else do pure (decide ((← pyLen corrections) < 1))
    if corrBad then pure (false, "Feedback must have at least 1 correction")
    else if ¬ pyTruthy improved then
      pure (false, "Feedback must have improved_version")
    else pure (true, "")
  else pure (true, "")

def validate_smart_lesson (content : PyVal) : Except PyErr (Bool × String) := do
  let hook ← mGet content "hook" (.str "")
  let hookBad ←
    if ¬ pyTruthy hook then pure true
    else do pure (decide ((← pyLen hook) < 10))
  if hookBad then pure (false, "smart_lesson hook too short (min 10 chars)")
  else do
    let insight ← mGet content "insight" (.str "")
    let insBad ←
      if ¬ pyTruthy insight then pure true
      else do pure (decide ((← pyLen insight) < 10))
    if insBad then pure (false, "smart_lesson insight too short (min 10 chars)")
    else do
      let checkTask := fun (task_key : String) => do
        let task ← mGet content task_key (.dict [])
        match task with
        | .dict _ => do
          if ¬ pyTruthy (← mGet task "instruction" PyVal.none) then
            pure (some ("smart_lesson " ++ task_key ++ " missing instruction"))
          else do
            let opts ← mGet task "options" (.list [])
            let n ← pyLen opts
            if n ≠ 3 then
              pure (some ("smart_lesson " ++ task_key ++
                " must have exactly 3 options, got " ++ toString n))
            else do
              let ci ← mGet task "correct_index" PyVal.none
              if (← indexInvalid ci n) then
                pure (some ("smart_lesson " ++ task_key ++ " has invalid correct_index"))
              else if ¬ pyTruthy (← mGet task "explanation" PyVal.none) then
                pure (some ("smart_lesson " ++ task_key ++ " missing explanation"))
              else pure Option.none
        | _ => pure (some ("smart_lesson " ++ task_key ++ " must be an object"))
      let r1 ← checkTask "micro_task_1"
      match r1 with
      | some msg => pure (false, msg)
      | Option.none => do
        let r2 ← checkTask "micro_task_2"
        match r2 with
        | some msg => pure (false, msg)
        | Option.none => do
          let (is_generic, reason) ← is_generic_smart_lesson content
          if is_generic then pure (false, "smart_lesson too generic: " ++ reason)
          else pure (true, "")

def validate_translation (content : PyVal) : Except PyErr (Bool × String) := do
  let items ← mGet content "items" (.list [])
  if (← pyLen items) < 1 then pure (false, "Translation must have at least 1 item")
  else pure (true, "")

def validate_cards (content : PyVal) : Except PyErr (Bool × String) := do
  let cards ← mGet content "cards" (.list [])
  if (← pyLen cards) < 3 then pure (false, "Cards must have at least 3 cards")
  else pure (true, "")

/-- Kind-specific dispatch at the end of `_validate_focus_item`; kinds with
no branch (notably `writing`) fall through to `(True, "")`. -/
def validate_kind_specific (kind : String) (content : PyVal) :
    Except PyErr (Bool × String) :=
  if kind = "quiz" then validate_quiz content
  else if kind = "content" then validate_content content
  else if kind = "checklist" then validate_checklist content
  else if kind = "upload_review" then validate_upload_review content
  else if kind = "cards" then validate_cards content
  else if kind = "roleplay" then validate_roleplay content
  else if kind = "translation" then validate_translation content
  else if kind = "briefing" then validate_briefing content
  else if kind = "feedback" then validate_feedback content
  else if kind = "smart_lesson" then validate_smart_lesson content
  else .ok (true, "")

/-- `_validate_focus_item(item)`: `(is_valid, error_message)`, or a raised
exception for malformed field types. -/
def validate_focus_item (item : PyDict) : Except PyErr (Bool × String) := do
  let kind := pyGetD item "kind" PyVal.none
  let kindOk : Option String :=
    match kind with
    | .str s => if s ∈ VALID_KINDS then some s else Option.none
    | _ => Option.none
  match kindOk with
  | Option.none => pure (false, "Invalid or missing kind: " ++ pyStr kind)
  | some k => do
    let forb ←
      if k ≠ "content" then do
        scanForbidden (← forbidden_check_fields item)
      else pure Option.none
    match forb with
    | some pat =>
      pure (false, "Contains forbidden pattern: \x27" ++ pat ++
        "\x27 - tasks requiring speaking aloud cannot be verified")
    | Option.none =>
      match REQUIRED_FIELDS.find? (fun f => ¬ hasKey item f) with
      | some f => pure (false, "Missing required field: " ++ f)
      | Option.none => do
        let validation := pyGetD item "validation" (.dict [])
        let riBad ←
          if k ∉ (["content", "briefing", "feedback"] : List String) then do
            pure (!(pyTruthy (← mGet validation "require_interaction" PyVal.none)))
          else pure false
        if riBad then pure (false, "validation.require_interaction must be true")
        else
          let content := pyGetD item "content" (.dict [])
          validate_kind_specific k content

/-! ## JSON fence stripping and extraction (lines 58–143)

`_strip_json_fences` applies two `re.sub` calls in MULTILINE mode.  Both
patterns are transcribed as direct scanners:
* the opening pattern `^```\s*(?:json)?\s*
?` (IGNORECASE) matches, at any
  line start, three backticks, a greedy whitespace run, an optional
  case-insensitive `json`, and another greedy whitespace run (after the
  greedy `\s*` the trailing `
?` can never consume anything);
* the closing pattern `
?\s*```\s*$` matches an optional whitespace run,
  three backticks, then whitespace up to a `$` position (end of string, or
  just before a newline — the regex engine backtracks the final greedy `\s*`
  to the latest such position). -/

/-- First index at which `pat` occurs (`s.find`). -/
def findSubIdx (pat : List Char) : List Char → Option Nat
  | [] => if pat = [] then some 0 else Option.none
  | l@(_ :: rest) =>
    if pat.isPrefixOf l then some 0
    else (findSubIdx pat rest).map (· + 1)

/-- Detects the optional case-insensitive `json` after the first whitespace
run of an opening-fence match. -/
def openFenceHasJson (cs : List Char) : Bool :=
  ['j', 's', 'o', 'n'].isPrefixOf
    ((((cs.drop 3).dropWhile isPySpace).take 4).map pyLowerChar)

/-- The input remaining after one opening-fence match (backticks, whitespace
run, optional `json`, whitespace run). -/
def openFenceRest (cs : List Char) : List Char :=
  if openFenceHasJson cs then
    (((cs.drop 3).dropWhile isPySpace).drop 4).dropWhile isPySpace
  else ((cs.drop 3).dropWhile isPySpace).dropWhile isPySpace

/-- Whether the last character consumed by the opening-fence match was a
newline (making the next scan position a line start). -/
def openFenceLastNL (cs : List Char) : Bool :=
  if openFenceHasJson cs then
    match ((((cs.drop 3).dropWhile isPySpace).drop 4).takeWhile isPySpace).getLast? with
    | some ch => ch = '
'
    | Option.none => false
  else
    match ((cs.drop 3).takeWhile isPySpace).getLast? with
    | some ch => ch = '
'
    | Option.none => false

lemma length_dropWhile_le (p : Char → Bool) (l : List Char) :
    (l.dropWhile p).length ≤ l.length :=
  (List.dropWhile_sublist (p := p) (l := l)).length_le

lemma length_takeWhile_le (p : Char → Bool) (l : List Char) :
    (l.takeWhile p).length ≤ l.length :=
  (List.takeWhile_sublist (p := p) (l := l)).length_le

lemma length_takeWhile_add_dropWhile (p : Char → Bool) (l : List Char) :
    (l.takeWhile p).length + (l.dropWhile p).length = l.length := by
  have := congrArg List.length (List.takeWhile_append_dropWhile p l)
  rw [List.length_append] at this
  exact this

lemma openFenceRest_length (cs : List Char) :
    (openFenceRest cs).length ≤ cs.length - 3 := by
  have h3 : (cs.drop 3).length = cs.length - 3 := List.length_drop 3 cs
  have h1 := length_dropWhile_le isPySpace (cs.drop 3)
  unfold openFenceRest
  split
  · have h4 := List.length_drop 4 ((cs.drop 3).dropWhile isPySpace)
    have h2 := length_dropWhile_le isPySpace
      (((cs.drop 3).dropWhile isPySpace).drop 4)
    omega
  · have h2 := length_dropWhile_le isPySpace ((cs.drop 3).dropWhile isPySpace)
    omega

/-- Opening-fence substitution (`re.sub` #1), tracking line starts.  Each
match consumes at least three characters, so `fuel := cs.length` always
suffices (`openFenceRest_length`); the fuel only makes the recursion
structural so the kernel can evaluate it. -/
def subOpenFencesF : Nat → List Char → Bool → List Char
  | 0, _, _ => []
  | _ + 1, [], _ => []
  | fuel + 1, c :: rest, atLS =>
    if atLS ∧ ['`', '`', '`'].isPrefixOf (c :: rest) then
      subOpenFencesF fuel (openFenceRest (c :: rest)) (openFenceLastNL (c :: rest))
    else c :: subOpenFencesF fuel rest (c = '
')

def subOpenFences (cs : List Char) (atLS : Bool) : List Char :=
  subOpenFencesF cs.length cs atLS

/-- One attempted match of the closing-fence pattern starting here: on
success, returns the input suffix remaining after deleting the match. -/
def closeFenceMatch (cs : List Char) : Option (List Char) :=
  let rest := cs.dropWhile isPySpace
  if ['`', '`', '`'].isPrefixOf rest then
    let rest2 := rest.drop 3
    let ws2 := rest2.takeWhile isPySpace
    let rest3 := rest2.dropWhile isPySpace
    if rest3 = [] then some []
    else
      -- backtrack the final `\s*` to just before the last newline of `ws2`
      let revTail := ws2.reverse.takeWhile (fun ch => ch ≠ '
')
      if revTail.length = ws2.length then Option.none
      else some (('
' :: revTail.reverse) ++ rest3)
  else Option.none

lemma closeFenceMatch_length (cs r : List Char) (h : closeFenceMatch cs = some r) :
    r.length + 3 ≤ cs.length := by
  have hsplit := length_takeWhile_add_dropWhile isPySpace cs
  simp only [closeFenceMatch] at h
  split at h
  case isTrue hpre =>
    have hlen3 : 3 ≤ (cs.dropWhile isPySpace).length := by
      have := (List.isPrefixOf_iff_prefix.mp hpre).length_le
      simpa using this
    have hrest2 : ((cs.dropWhile isPySpace).drop 3).length
        = (cs.dropWhile isPySpace).length - 3 := List.length_drop _ _
    have hsplit2 := length_takeWhile_add_dropWhile isPySpace
      ((cs.dropWhile isPySpace).drop 3)
    split at h
    case isTrue h3 =>
      cases h
      simp only [List.length_nil]
      omega
    case isFalse h3 =>
      split at h
      case isTrue => exact absurd h (by simp)
      case isFalse hne =>
        cases h
        have htake : ((((cs.dropWhile isPySpace).drop 3).takeWhile
            isPySpace).reverse.takeWhile (fun ch => ch ≠ '
')).length
            ≤ (((cs.dropWhile isPySpace).drop 3).takeWhile isPySpace).length := by
          have := length_takeWhile_le (fun ch => decide (ch ≠ '
'))
            (((cs.dropWhile isPySpace).drop 3).takeWhile isPySpace).reverse
          simpa using this
        simp only [List.length_append, List.length_cons, List.length_reverse]
        omega
  case isFalse => exact absurd h (by simp)

/-- Closing-fence substitution (`re.sub` #2), with the same kind of
length-derived fuel (each match consumes at least three characters,
`closeFenceMatch_length`). -/
def subCloseFencesF : Nat → List Char → List Char
  | 0, _ => []
  | _ + 1, [] => []
  | fuel + 1, c :: rest =>
    match closeFenceMatch (c :: rest) with
    | some remaining => subCloseFencesF fuel remaining
    | Option.none => c :: subCloseFencesF fuel rest

def subCloseFences (cs : List Char) : List Char :=
  subCloseFencesF cs.length cs

/-- `_strip_json_fences(s)`. -/
def strip_json_fences (s : String) : String :=
  if s = "" then ""
  else
    let t := pyStrip s
    pyStrip (String.mk (subCloseFences (subOpenFences t.data true)))

def strEndsWith (s suf : String) : Bool :=
  suf.data.isSuffixOf s.data

/-- The balanced-brace scanner of `_extract_json_object`, tracking
string/escape state; `depth` counts open braces, `acc` the candidate so far
(reversed).  Returns the candidate `s[start:i+1]` at the first brace-depth
return to zero. -/
def braceScan : List Char → Nat → Bool → Bool → List Char → Option (List Char)
  | [], _, _, _, _ => Option.none
  | ch :: rest, depth, in_string, escape, acc =>
    if escape then braceScan rest depth in_string false (ch :: acc)
    else if ch = '\\' ∧ in_string then braceScan rest depth in_string true (ch :: acc)
    else if ch = '"' then braceScan rest depth (!in_string) false (ch :: acc)
    else if in_string then braceScan rest depth in_string false (ch :: acc)
    else if ch = '{' then braceScan rest (depth + 1) in_string false (ch :: acc)
    else if ch = '}' then
      if depth = 1 then some (ch :: acc).reverse
      else braceScan rest (depth - 1) in_string false (ch :: acc)
    else braceScan rest depth in_string false (ch :: acc)

/-- The markdown-fence removal step at the top of `_extract_json_object`:
drop everything up to and including the first ```` ```json ```` (or bare
```` ``` ````) marker, and truncate at the next ```` ``` ```` when present. -/
def cut_fences (s : String) : String :=
  if containsSub "```" s then
    if containsSub "```json" s then
      match findSubIdx "```json".data s.data with
      | some start =>
        let s1 := s.data.drop (start + 7)
        match findSubIdx "```".data s1 with
        | some e => String.mk (s1.take e)
        | Option.none => String.mk s1
      | Option.none => s
    else
      match findSubIdx "```".data s.data with
      | some start =>
        let s1 := s.data.drop (start + 3)
        match findSubIdx "```".data s1 with
        | some e => String.mk (s1.take e)
        | Option.none => String.mk s1
      | Option.none => s
  else s

/-- The balanced-brace fallback of `_extract_json_object`: scan from the
first `{` and feed the balanced candidate to `json.loads`. -/
def extract_scan (loads : String → Option PyVal) (s : String) : Option PyVal :=
  match findSubIdx ['\x7b'] s.data with
  | Option.none => Option.none
  | some start =>
    match braceScan (s.data.drop start) 0 false false [] with
    | some candidate => loads (String.mk candidate)
    | Option.none => Option.none

/-- The parse stage of `_extract_json_object` on the cleaned string: the
fast path (`json.loads` when the text starts with `{` and ends with `}`),
then the balanced-brace scan from the first `{`. -/
def extract_core (loads : String → Option PyVal) (s : String) : Option PyVal :=
  match (if strStartsWith s "\x7b" ∧ strEndsWith s "\x7d" then loads s
      else Option.none : Option PyVal) with
  | some v => some v
  | Option.none => extract_scan loads s

/-- `_extract_json_object(text)`: first top-level JSON object from arbitrary
text, with `json.loads` supplied as an oracle (it is only ever applied to
strings that start with `{`). -/
def extract_json_object (loads : String → Option PyVal) (text : String) :
    Option PyVal :=
  if text = "" then Option.none
  else extract_core loads (pyStrip (cut_fences (pyStrip text)))

/-! ## LLM error detection and target-language resolution -/

/-- `_is_llm_error(text)` (lines 1989–2001, local to `generate_focus_item`). -/
def is_llm_error (text : String) : Bool :=
  if text = "" then true
  else
    let lower := pyLower (pyStrip text)
    strStartsWith text "Error:" || containsSub "overloaded" lower ||
      containsSub "not available" lower || containsSub "invalid model" lower

/-- `_NON_LATIN_LANGUAGES` (line 1686). -/
def NON_LATIN_LANGUAGES : List String :=
  ["greek", "korean", "japanese", "chinese", "mandarin",
   "arabic", "hebrew", "hindi", "thai", "russian",
   "ukrainian", "georgian", "armenian", "bengali", "tamil"]

/-- `_is_nonlatin_language(lang)`. -/
def is_nonlatin_language (lang : String) : Bool :=
  pyLower lang ∈ NON_LATIN_LANGUAGES

/-- `_HU_LANG_NAME_MAP` (line 1698). -/
def HU_LANG_NAME_MAP : List (String × String) :=
  [("koreai", "korean"), ("japán", "japanese"), ("görög", "greek"),
   ("kínai", "chinese"), ("arab", "arabic"), ("héber", "hebrew"),
   ("hindi", "hindi"), ("thai", "thai"), ("orosz", "russian"),
   ("ukrán", "ukrainian"), ("grúz", "georgian"), ("örmény", "armenian"),
   ("bengáli", "bengali"), ("tamil", "tamil"), ("mandarin", "mandarin"),
   ("angol", "english"), ("német", "german"), ("francia", "french"),
   ("olasz", "italian"), ("spanyol", "spanish"), ("portugál", "portuguese"),
   ("holland", "dutch"), ("svéd", "swedish"), ("finn", "finnish"),
   ("lengyel", "polish"), ("cseh", "czech"), ("román", "romanian"),
   ("török", "turkish"), ("norvég", "norwegian"), ("dán", "danish")]

/-- `_resolve_target_language(settings, day_title, user_goal)` (lines
1729–1749); can raise when `settings["target_language"]` is a truthy
non-string (Python's `.strip()` on it). -/
def resolve_target_language (settings : PyDict) (day_title user_goal : String) :
    Except PyErr String := do
  let tv := pyGetD settings "target_language" PyVal.none
  let target ←
    if ¬ pyTruthy tv then pure ""
    else match tv with
      | .str s => pure (pyLower (pyStrip s))
      | _ => .error .attributeError
  if target ≠ "" then pure target
  else
    let infer := fun (source : String) =>
      if source = "" then ""
      else
        let pre :=
          if containsSub " - " source then pyLower (pyStrip (splitFirst source " - "))
          else ""
        if pre ≠ "" then
          match HU_LANG_NAME_MAP.find? (fun kv => kv.1 = pre) with
          | some kv => kv.2
          | Option.none => ""
        else ""
    let r1 := infer day_title
    if r1 ≠ "" then pure r1
    else
      let r2 := infer user_goal
      if r2 ≠ "" then pure r2
      else pure ""

/-! ## The deterministic fallback generator `_create_fallback_item`
(lines 2162–2440) -/

/-- Update `d[outer][key] = v` where `d[outer]` is statically a dict (the
fallback builder only ever applies this to its own literal sub-dicts). -/
def dsetIn (d : PyDict) (outer key : String) (v : PyVal) : PyDict :=
  match pyGetD d outer PyVal.none with
  | .dict inner => dset d outer (.dict (dset inner key v))
  | _ => d

/-- CPython's process-seeded `hash` for strings, modelled as 0 (it only
feeds the `idempotency_key` text, which nothing ever inspects). -/
def pyHash (_ : String) : Int := 0

def hiq (is_hu : Bool) (hu en : String) : PyVal :=
  .str (if is_hu then hu else en)

def create_fallback_item (kind topic label lang : String) (minutes : Int)
    (domain : String) : PyDict :=
  let is_hu := strStartsWith (pyLower (if lang = "" then "hu" else lang)) "hu"
  let rules := kindRules kind
  let domain_lower := pyLower (if domain = "" then "other" else domain)
  let is_language_domain :=
    domain_lower = "language_learning" ∨ domain_lower = "language"
  let base : PyDict :=
    [("schema_version", .str "1.0"),
     ("kind", .str kind),
     ("idempotency_key", .str ("fallback-" ++ kind ++ "-" ++
        toString (pyHash topic % 10000))),
     ("title", .str label),
     ("subtitle", .str topic),
     ("estimated_minutes", .int minutes),
     ("difficulty", .str "normal"),
     ("instructions_md", hiq is_hu "Végezd el a feladatot az alábbi útmutató szerint."
        "Complete the task following the guide below."),
     ("rubric_md", hiq is_hu "Ellenőrizd, hogy minden lépést elvégeztél."
        "Check that you completed all steps."),
     ("ui", .dict [("primary_cta", hiq is_hu "Kész" "Done"),
                   ("secondary_cta", PyVal.none)]),
     ("input", .dict [("type", pyGetD rules "input_type" (.str "text")),
                      ("placeholder", hiq is_hu "Írd ide..." "Type here...")]),
     ("validation", .dict [("require_interaction", .bool true),
                           ("min_chars", pyGetD rules "min_chars" (.int 20)),
                           ("min_items", pyGetD rules "min_items" (.int 1))]),
     ("scoring", .dict [("mode", .str "manual"), ("max_points", .int 10)])]
  if kind = "smart_lesson" then
    let base := dset base "content" (.dict
      [("hook", hiq is_hu
          ("Ma a(z) **" ++ topic ++ "** témát vesszük át — egy gyors, lényegre törő leckében.")
          ("Today we cover **" ++ topic ++ "** — fast, practical, and straight to the point.")),
       ("micro_task_1", .dict
         [("instruction", hiq is_hu
             ("Melyik állítás írja le legjobban a(z) " ++ topic ++ " lényegét?")
             ("Which statement best describes " ++ topic ++ "?")),
          ("options", .list
            [hiq is_hu ("A(z) " ++ topic ++ " segít konkrét célt és lépéseket meghatározni.")
               (topic ++ " helps define clear goals and steps."),
             hiq is_hu "Csak általános inspiráció, konkrét lépések nélkül."
               "Just general inspiration without concrete steps.",
             hiq is_hu "Elméleti tudás, amit nem lehet a gyakorlatban alkalmazni."
               "Pure theory with no practical application."]),
          ("correct_index", .int 0),
          ("explanation", hiq is_hu "A helyes válasz: konkrét cél + lépések = eredmény."
             "Correct: clear goal + steps = results.")]),
       ("micro_task_2", .dict
         [("instruction", hiq is_hu
             ("Mikor érdemes a(z) " ++ topic ++ " elvét alkalmazni?")
             ("When is it worth applying " ++ topic ++ "?")),
          ("options", .list
            [hiq is_hu "Ha konkrét, mérhető eredményt szeretnél elérni."
               "When you want a concrete, measurable outcome.",
             hiq is_hu "Ha nincs szükséged semmiféle visszajelzésre."
               "When you need no feedback at all.",
             hiq is_hu "Ha véletlenszerű döntést szeretnél hozni."
               "When you want to make a random decision."]),
          ("correct_index", .int 0),
          ("explanation", hiq is_hu "Mérhető cél és lépések — ez a kulcs."
             "Measurable goal and steps — that is the key.")]),
       ("insight", hiq is_hu
          ("A(z) " ++ topic ++ " nem rakétatudomány: célt tűzöl ki, lépéseket teszel, és méred az eredményt.")
          (topic ++ " is straightforward: set a goal, take steps, measure the result."))])
    let base := dsetIn base "validation" "require_interaction" (.bool true)
    dsetIn base "input" "type" (.str "choice")
  else if kind = "content" then
    let base :=
      if is_language_domain then
        dset base "content" (.dict
          [("content_type", .str "language_lesson"),
           ("title", hiq is_hu (topic ++ " - alaplecke") (topic ++ " - starter lesson")),
           ("introduction", hiq is_hu
              ("Ebben a rövid leckében a(z) " ++ topic ++ " témához kapcsolódó alap szókincset és mondatszerkezeteket tanulod. " ++
               "A cél, hogy egyszerű helyzetekben magabiztosan tudj köszönni, bemutatkozni, és röviden válaszolni.")
              ("In this short lesson you learn the core vocabulary and sentence patterns for " ++ topic ++ ". " ++
               "The goal is to greet people, introduce yourself, and answer simple questions with confidence.")),
           ("key_points", .list
             [hiq is_hu "Köszönések és udvarias alapmondatok." "Basic greetings and polite starter phrases.",
              hiq is_hu "Egyszerű bemutatkozás: név, származás, foglalkozás." "Simple self-introduction: name, origin, role.",
              hiq is_hu "Rövid kérdés-válasz minták hétköznapi helyzetekre." "Short question-answer patterns for daily situations."]),
           ("vocabulary_table", .list
             [.dict [("word", .str "Hello"), ("translation", .str "Helló")],
              .dict [("word", .str "Good morning"), ("translation", .str "Jó reggelt")],
              .dict [("word", .str "Good afternoon"), ("translation", .str "Jó napot")],
              .dict [("word", .str "My name is"), ("translation", .str "A nevem")],
              .dict [("word", .str "Nice to meet you"), ("translation", .str "Örülök, hogy megismertelek")],
              .dict [("word", .str "How are you?"), ("translation", .str "Hogy vagy?")]]),
           ("grammar_explanation", .dict
             [("rule_title", .str "Egyszerű bemutatkozó mondat"),
              ("formation_pattern", .str "My name is + név"),
              ("explanation", hiq is_hu
                 "A minta segít udvariasan bemutatkozni első találkozáskor."
                 "This pattern is used to introduce yourself politely in first meetings."),
              ("examples", .list
                [.dict [("target", .str "My name is Anna."), ("hungarian", .str "A nevem Anna.")],
                 .dict [("target", .str "My name is Peter."), ("hungarian", .str "A nevem Péter.")]])]),
           ("dialogues", .list
             [.dict [("scene", hiq is_hu "Első találkozás" "First meeting"),
                     ("lines", .list
                       [.dict [("speaker", .str "A"), ("text", .str "Hello!"), ("translation", .str "Helló!")],
                        .dict [("speaker", .str "B"), ("text", .str "Good afternoon!"), ("translation", .str "Jó napot!")],
                        .dict [("speaker", .str "A"), ("text", .str "My name is Anna."), ("translation", .str "A nevem Anna.")],
                        .dict [("speaker", .str "B"), ("text", .str "Nice to meet you."), ("translation", .str "Örülök, hogy megismertelek.")]])]]),
           ("common_mistakes", .list
             [hiq is_hu "A \x27My name is\x27 után lemarad a név." "Leaving out the name after \x27My name is\x27.",
              hiq is_hu "A köszönést napszakhoz rosszul választják." "Using a greeting that does not match the time of day.",
              hiq is_hu "Túl hosszú, bonyolult mondatok kezdő szinten." "Using overly long, complex sentences at beginner level."]),
           ("estimated_minutes", .int (max 3 (min 10 minutes)))])
      else
        dset base "content" (.dict
          [("title", hiq is_hu (topic ++ " alapjai") (topic ++ " essentials")),
           ("summary", hiq is_hu
              ("A(z) " ++ topic ++ " lényege, hogy érthetően lásd a célt és a megvalósítás lépéseit. " ++
               "Ez a rövid áttekintés segít abban, hogy mikor és hogyan használd a fogalmat a gyakorlatban.")
              (topic ++ " focuses on understanding the goal and the practical steps to apply it. " ++
               "This short overview helps you decide when to use it and what to watch for in practice.")),
           ("key_points", .list
             [hiq is_hu ("Definíció: mi a(z) " ++ topic ++ " és mire szolgál.")
                ("Definition: what " ++ topic ++ " is and what it is for."),
              hiq is_hu "Működés: a folyamat fő lépései röviden." "How it works: the main steps in order.",
              hiq is_hu "Alkalmazás: egy tipikus helyzet, ahol hasznos." "Use case: a typical scenario where it helps.",
              hiq is_hu "Korlátok: mikor nem ideális a használata." "Limitations: when it is not ideal.",
              hiq is_hu "Kapcsolódás: hogyan illeszkedik a kapcsolódó fogalmakhoz." "Connections: how it relates to nearby concepts."]),
           ("example", hiq is_hu
              ("Példa: Egy konkrét helyzetben a(z) " ++ topic ++ " segít a cél elérésében, mert lépésről lépésre követhető megoldást ad.")
              ("Example: In a real situation, " ++ topic ++ " guides the process by making steps clear and measurable.")),
           ("micro_task", .dict
             [("instruction", hiq is_hu
                 ("Írj 2–3 mondatban egy saját példát, ahol a(z) " ++ topic ++ " segítene.")
                 ("Write a 2–3 sentence example where " ++ topic ++ " would help.")),
              ("expected_output", hiq is_hu "2–3 mondat, konkrét helyzettel és céllal."
                 "2–3 sentences with a concrete situation and goal.")]),
           ("common_mistakes", .list
             [hiq is_hu "Túl általános megfogalmazás konkrétumok nélkül." "Using vague statements without concrete details.",
              hiq is_hu "A lépések összekeverése vagy kihagyása." "Skipping or mixing up steps.",
              hiq is_hu "A cél és a mérhető eredmény nem tiszta." "Unclear goal or success criteria."]),
           ("estimated_minutes", .int (max 3 (min 10 minutes)))])
    let base := dsetIn base "validation" "require_interaction" (.bool false)
    dsetIn base "input" "type" (.str "none")
  else if kind = "quiz" then
    dset base "content" (.dict
      [("title", hiq is_hu (topic ++ " kvíz") (topic ++ " quiz")),
       ("questions", .list
         [.dict
           [("q", hiq is_hu ("Melyik állítás írja le legjobban a(z) " ++ topic ++ " lényegét?")
               ("Which statement best describes " ++ topic ++ "?")),
            ("options", .list
              [hiq is_hu ("A(z) " ++ topic ++ " célja egy világos, mérhető eredmény elérése.")
                 (topic ++ " aims for a clear, measurable outcome."),
               hiq is_hu ("A(z) " ++ topic ++ " csak általános inspiráció, lépések nélkül.")
                 (topic ++ " is only general inspiration without steps."),
               hiq is_hu ("A(z) " ++ topic ++ " kizárólag hosszú távú elmélet, gyakorlati nélkül.")
                 (topic ++ " is purely long-term theory with no practice.")]),
            ("answer_index", .int 0),
            ("explanation", hiq is_hu "Az első opció köti a célt és a megvalósítást."
               "Option one links goal and execution.")],
          .dict
           [("q", hiq is_hu ("Mikor hasznos a(z) " ++ topic ++ "?") ("When is " ++ topic ++ " useful?")),
            ("options", .list
              [hiq is_hu "Ha konkrét célt és lépéseket kell meghatározni." "When you need a clear goal and steps.",
               hiq is_hu "Ha nincs szükség mérhető eredményre." "When no measurable outcome is needed.",
               hiq is_hu "Ha teljesen véletlenszerűen kell dönteni." "When decisions should be random."]),
            ("answer_index", .int 0),
            ("explanation", hiq is_hu "A konkrét cél és lépések a kulcs." "Clear goals and steps are the key.")],
          .dict
           [("q", hiq is_hu ("Mi a leggyakoribb hiba a(z) " ++ topic ++ " alkalmazásakor?")
               ("What is a common mistake when applying " ++ topic ++ "?")),
            ("options", .list
              [hiq is_hu "A lépések kihagyása vagy összekeverése." "Skipping or mixing up steps.",
               hiq is_hu "A cél egyértelmű megfogalmazása." "Clearly defining the goal.",
               hiq is_hu "Az eredmény mérése." "Measuring the result."]),
            ("answer_index", .int 0),
            ("explanation", hiq is_hu "A folyamat lépéseinek elhagyása torzít." "Skipping steps causes errors.")],
          .dict
           [("q", hiq is_hu ("Melyik kimenet jelzi, hogy a(z) " ++ topic ++ " jól működött?")
               ("Which outcome shows that " ++ topic ++ " worked well?")),
            ("options", .list
              [hiq is_hu "Mérhetően javult az eredmény." "The outcome measurably improved.",
               hiq is_hu "Semmi nem változott." "Nothing changed.",
               hiq is_hu "Nem tudjuk megmondani." "We cannot tell."]),
            ("answer_index", .int 0),
            ("explanation", hiq is_hu "A mérhető javulás jelzi a sikert." "Measurable improvement indicates success.")]]),
       ("estimated_minutes", .int (max 3 (min 8 minutes)))])
  else if kind = "checklist" then
    dset base "content" (.dict
      [("title", hiq is_hu (topic ++ " ellenőrzőlista") (topic ++ " checklist")),
       ("items", .list
         [.dict [("text", hiq is_hu ("Fogalmazd meg a(z) " ++ topic ++ " pontos célját 1 mondatban.")
             ("Define the exact goal for " ++ topic ++ " in one sentence.")), ("done", .bool false)],
          .dict [("text", hiq is_hu ("Sorolj fel 3 követelményt a(z) " ++ topic ++ " kapcsán.")
             ("List 3 constraints for " ++ topic ++ ".")), ("done", .bool false)],
          .dict [("text", hiq is_hu "Állíts össze egy rövid (3 lépés) tervet."
             "Draft a short 3-step plan."), ("done", .bool false)],
          .dict [("text", hiq is_hu "Készíts egy első mérhető eredményt."
             "Create a first measurable deliverable."), ("done", .bool false)],
          .dict [("text", hiq is_hu "Írd le a következő lépést és a határidőt."
             "Write the next step and a deadline."), ("done", .bool false)]]),
       ("estimated_minutes", .int (max 3 (min 10 minutes)))])
  else if kind = "upload_review" then
    let base := dset base "content" (.dict
      [("title", hiq is_hu (topic ++ " feltöltés") (topic ++ " upload")),
       ("prompt", hiq is_hu ("Tölts fel egy fájlt, ami bemutatja: " ++ topic ++ ".")
          ("Upload a file that demonstrates: " ++ topic ++ ".")),
       ("rubric", .list
         [hiq is_hu "A cél világosan látszik." "The goal is clear.",
          hiq is_hu "A lényegi elemek benne vannak." "Key elements are present.",
          hiq is_hu "A kimenet rendezett és olvasható." "The output is organized and readable.",
          hiq is_hu "Azonosíthatók a hiányok." "Gaps are identifiable."]),
       ("estimated_minutes", .int (max 3 (min 10 minutes)))])
    let base := dsetIn base "input" "type" (.str "file")
    dsetIn base "validation" "min_items" (.int 1)
  else if kind = "briefing" then
    let base := dset base "content" (.dict
      [("situation", hiq is_hu ("Ma a következő munkahelyi szituációval foglalkozunk: " ++ topic ++ ".")
          ("Today we focus on this workplace scenario: " ++ topic ++ ".")),
       ("outcome", hiq is_hu "A nap végére képes leszel alkalmazni a tanultakat egy valós helyzetben."
          "By the end you will apply what you learned in a real situation."),
       ("key_vocabulary_preview", .list [])])
    let base := dsetIn base "validation" "require_interaction" (.bool false)
    dsetIn base "input" "type" (.str "none")
  else if kind = "feedback" then
    let base := dset base "content" (.dict
      [("placeholder", .bool true),
       ("user_text", .str ""),
       ("corrections", .list []),
       ("improved_version", .str ""),
       ("message", hiq is_hu "Először fejezd be a szövegalkotás feladatot!"
          "Complete the writing task first!")])
    let base := dsetIn base "validation" "require_interaction" (.bool false)
    dsetIn base "input" "type" (.str "none")
  else
    dset base "content" (.dict [("summary", .str topic)])

/-! ## The retry/fallback controller `generate_focus_item` (lines 1907–2159)

The controller is modelled as a function of two oracles (`loads` for
`json.loads`, `client` for the LLM call, indexed by the retry counter) that
returns the result — either a raised exception or the final item dict —
together with the number of LLM generation attempts made. -/

structure GenParams where
  item_type : String
  practice_type : Option String
  topic : String
  label : String
  day_title : String
  domain : String
  level : String
  lang : String
  minutes : Int
  user_goal : String
  settings : Option PyDict
  preceding_lesson_content : Option String

def LANGUAGE_ONLY_TYPES : List String := ["translation", "flashcard", "cards"]

def LANGUAGE_ONLY_PRACTICE_TYPES : List String :=
  ["translation", "exercise", "roleplay", "dialogue", "speaking"]

def ALLOWED_KINDS : List String :=
  ["content", "quiz", "checklist", "upload_review", "cards", "translation",
   "roleplay", "writing", "briefing", "feedback", "smart_lesson"]

/-- The DOMAIN GUARD of `generate_focus_item` (lines 1945–1965): blocks
language-only item types and practice types in non-language domains.  Takes
the already-coerced `item_type`/`domain` and returns the (possibly
redirected) `(item_type, practice_type)` pair. -/
def domain_guard (item_type : String) (practice_type : Option String)
    (domain : String) : String × Option String :=
  let domain_lower := pyLower domain
  let is_language_domain :=
    domain_lower = "language_learning" ∨ domain_lower = "language"
  let item_type_lower := pyLower item_type
  let practice_type_lower :=
    match practice_type with
    | some s => pyLower s
    | Option.none => ""
  let r1 :=
    if ¬ is_language_domain ∧ item_type_lower ∈ LANGUAGE_ONLY_TYPES
    then ("quiz", (Option.none : Option String))
    else (item_type, practice_type)
  if ¬ is_language_domain ∧ practice_type_lower ∈ LANGUAGE_ONLY_PRACTICE_TYPES
  then (r1.1, Option.none)
  else r1

/-- The full kind resolution of `generate_focus_item` (defensive coercions,
domain guard, `_determine_item_kind`, allowed-kind coercion). -/
def resolve_item_kind (item_type0 : String) (practice_type0 : Option String)
    (domain0 : String) : String :=
  let item_type1 := if item_type0 = "" then "lesson" else item_type0
  let domain := if domain0 = "" then "other" else domain0
  let gp := domain_guard item_type1 practice_type0 domain
  let kind0 := determine_item_kind gp.1 gp.2
  if kind0 ∈ ALLOWED_KINDS then kind0
  else if pyLower item_type1 = "lesson" then "content" else "checklist"

/-- `preceding_lesson_content` truthiness (None and `""` are falsy). -/
def chainTruthy : Option String → Bool
  | some s => s ≠ ""
  | Option.none => false

/-- Counts vocabulary entries (or glyph entries) whose `key` field is pure
ASCII: `sum(1 for v in l if v.get(key, "").isascii())`. -/
def countAscii (l : List PyVal) (key : String) : Except PyErr Nat :=
  match l with
  | [] => .ok 0
  | v :: rest => do
    let w ← mGet v key (.str "")
    let hit ← match w with
      | .str s => pure (isAsciiStr s)
      | .bool _ | .int _ | .list _ | .dict _ | .none => .error .attributeError
    let n ← countAscii rest key
    pure ((if hit then 1 else 0) + n)

/-- The non-Latin script-mismatch re-check of `generate_focus_item` (lines
2124–2157): true means the accepted item must be regenerated. -/
def script_mismatch_check (content_data : PyVal) : Except PyErr Bool := do
  let vocab ← mGet content_data "vocabulary_table" (.list [])
  let vres ←
    match vocab with
    | .list l =>
      if l.length > 0 then do
        let ascii_count ← countAscii l "word"
        pure (decide (2 * ascii_count > l.length))
      else pure false
    | _ => pure false
  if vres then pure true
  else do
    let flow ← mGet content_data "lesson_flow" (.list [])
    match flow with
    | .list fl =>
      let rec loop : List PyVal → Except PyErr Bool
        | [] => pure false
        | fi :: rest => do
          let letters ← mGet fi "letters" (.list [])
          match letters with
          | .list ll =>
            if ll.length > 0 then do
              let ag ← countAscii ll "glyph"
              if 2 * ag > ll.length then pure true else loop rest
            else loop rest
          | _ => loop rest
      if fl.length > 0 then loop fl else pure false
    | _ => pure false

/-- The post-parse normalization of `generate_focus_item` (lines 2080–2090):
force the backend-resolved `kind`, force `validation.require_interaction`
consistent with it, set the read-only `input` block or stamp
`chain_version`.  Raises `TypeError` when the parsed `validation` value does
not support item assignment (i.e. is not a dict). -/
def force_item_fields (d0 : PyDict) (kind : String) (chain : Bool) :
    Except PyErr PyDict :=
  let d1 := dset d0 "kind" (.str kind)
  let d2 := pySetdefault d1 "validation" (.dict [])
  if kind ∈ (["content", "briefing", "feedback"] : List String) then
    match pyGetD d2 "validation" PyVal.none with
    | .dict vd =>
      let d3 := dset d2 "validation"
        (.dict (dset vd "require_interaction" (.bool false)))
      .ok (dset d3 "input"
        (.dict [("type", .str "none"), ("placeholder", PyVal.none)]))
    | _ => .error .typeError
  else
    match pyGetD d2 "validation" PyVal.none with
    | .dict vd =>
      let d3 := dset d2 "validation"
        (.dict (dset vd "require_interaction" (.bool true)))
      .ok (if chain then dset d3 "chain_version" (.str "lesson_v2") else d3)
    | _ => .error .typeError

/-- One generation attempt: LLM call result handling, JSON extraction, kind
forcing, `require_interaction` normalization, validation and the script
re-check.  `.ok none` feeds the retry/fallback branch of the controller;
`.error` is a raised exception. -/
def gen_attempt (loads : String → Option PyVal) (text : String) (kind : String)
    (p : GenParams) (retry_count max_retries : Nat) :
    Except PyErr (Option PyDict) :=
  if is_llm_error text then .error (.runtimeError "Claude API temporarily unavailable")
  else
    let s := strip_json_fences text
    match extract_json_object loads s with
    | Option.none => .ok Option.none
    | some data =>
      if ¬ pyTruthy data then .ok Option.none
      else
        match data with
        | .dict d0 => do
          let d4 ← force_item_fields d0 kind (chainTruthy p.preceding_lesson_content)
          let r ← validate_focus_item d4
          if ¬ r.1 then pure Option.none
          else do
            let tgt ← resolve_target_language (p.settings.getD [])
              p.day_title p.user_goal
            if tgt ≠ "" ∧ is_nonlatin_language tgt ∧ kind = "content" ∧
                retry_count < min 1 max_retries then do
              let mm ← script_mismatch_check (pyGetD d4 "content" (.dict []))
              if mm then pure Option.none else pure (some d4)
            else pure (some d4)
        | _ => .error .typeError

/-- `generate_focus_item(...)`, returning `(outcome, attempts)`.  The source
recursion `return await generate_focus_item(..., retry_count + 1, ...)` is
mirrored directly; the script-mismatch retry only triggers when
`retry_count < min(1, max_retries) ≤ max_retries`, so routing it through the
common retry branch (whose guard then holds) is behaviour-preserving. -/
def generate_focus_item (loads : String → Option PyVal) (client : Nat → String)
    (p : GenParams) (retry_count max_retries : Nat) :
    Except PyErr PyDict × Nat :=
  let domain := if p.domain = "" then "other" else p.domain
  let lang := if p.lang = "" then "hu" else p.lang
  let level := if p.level = "" then "beginner" else p.level
  let item_type0 := if p.item_type = "" then "lesson" else p.item_type
  let gp := domain_guard item_type0 p.practice_type domain
  let kind0 := determine_item_kind gp.1 gp.2
  let kind := if kind0 ∈ ALLOWED_KINDS then kind0
    else if pyLower item_type0 = "lesson" then "content" else "checklist"
  let p' : GenParams :=
    { p with
      item_type := gp.1
      practice_type := gp.2
      domain := domain
      lang := lang
      level := level }
  match gen_attempt loads (client retry_count) kind p' retry_count max_retries with
  | .error e => (.error e, 1)
  | .ok (some d) => (.ok d, 1)
  | .ok Option.none =>
    if retry_count < max_retries then
      let r := generate_focus_item loads client p' (retry_count + 1) max_retries
      (r.1, r.2 + 1)
    else
      let fb := create_fallback_item kind p.topic p.label lang p.minutes domain
      let fb :=
        if chainTruthy p.preceding_lesson_content ∧ kind ≠ "content" then
          dset fb "chain_version" (.str "lesson_v2")
        else fb
      (.ok fb, 1)
termination_by max_retries - retry_count

/-! ## Day-structure normalization `_normalize_focus_day_items`
(lines 2922–3061) -/

/-- `(item.get(k) or "").lower()`: raises on a truthy non-string. -/
def getLowerStr (item : PyVal) (k : String) : Except PyErr String := do
  let v ← mGet item k PyVal.none
  if ¬ pyTruthy v then pure ""
  else match v with
    | .str s => pure (pyLower s)
    | _ => .error .attributeError

/-- State of the normalization loop: processed items plus the five
`has_*` flags (quiz, writing, task, exercise, translation). -/
structure DayLoopState where
  items : List PyVal
  has_quiz : Bool
  has_writing : Bool
  has_task : Bool
  has_exercise : Bool
  has_translation : Bool

/-- One iteration of the normalization loop over a day's items. -/
def dayLoopStep (is_language_domain : Bool) (st : DayLoopState) (item : PyVal) :
    Except PyErr DayLoopState := do
  let item_type ← getLowerStr item "type"
  let practice_type0 ← getLowerStr item "practice_type"
  let (item1, item_type, practice_type1) ←
    if ¬ is_language_domain then
      if practice_type0 ∈ LANGUAGE_ONLY_PRACTICE_TYPES then
        match item with
        | .dict d =>
          let item1 : PyVal := .dict (dset d "practice_type" (.str "writing"))
          if item_type ∈ (["flashcard", "translation"] : List String) then
            match item1 with
            | .dict d1 => pure (PyVal.dict (dset d1 "type" (.str "quiz")), "quiz", "writing")
            | _ => .error .typeError
          else pure (item1, item_type, "writing")
        | _ => .error .typeError
      else if item_type ∈ (["flashcard", "translation"] : List String) then
        match item with
        | .dict d => pure (PyVal.dict (dset d "type" (.str "quiz")), "quiz", practice_type0)
        | _ => .error .typeError
      else pure (item, item_type, practice_type0)
    else pure (item, item_type, practice_type0)
  let (item2, practice_type) ←
    if is_language_domain then
      let mapped :=
        if practice_type1 = "roleplay" ∨ practice_type1 = "dialogue" ∨
           practice_type1 = "conversation" then some "exercise"
        else if practice_type1 = "drill" then some "translation"
        else Option.none
      match mapped with
      | some newPt =>
        match item1 with
        | .dict d => pure (PyVal.dict (dset d "practice_type" (.str newPt)), newPt)
        | _ => .error .typeError
      | Option.none => pure (item1, practice_type1)
    else pure (item1, practice_type1)
  pure { items := st.items ++ [item2],
         has_quiz := st.has_quiz || item_type = "quiz" || practice_type = "quiz",
         has_writing := st.has_writing || practice_type = "writing",
         has_task := st.has_task || item_type = "task",
         has_exercise := st.has_exercise || practice_type = "exercise",
         has_translation := st.has_translation || practice_type = "translation" }

def dayLoop (is_language_domain : Bool) :
    DayLoopState → List PyVal → Except PyErr DayLoopState
  | st, [] => pure st
  | st, item :: rest => do
    dayLoop is_language_domain (← dayLoopStep is_language_domain st item) rest

/-- `_normalize_focus_day_items(data, day_index, is_hu, domain, settings)`. -/
def normalize_focus_day_items (data : PyDict) (day_index : Int) (is_hu : Bool)
    (domain : String) (settings : Option PyDict) : Except PyErr PyDict := do
  let track := pyGetD (settings.getD []) "track" (.str "")
  if pyEqStr track "career_language" ∨ pyEqStr track "foundations_language" then
    pure data
  else do
    let items := pyGetD data "items" (.list [])
    let domain_lower := pyLower (if domain = "" then "other" else domain)
    let is_language_domain :=
      domain_lower = "language_learning" ∨ domain_lower = "language"
    let itemsList ← match items with
      | .list l => pure l
      | .none | .bool _ | .int _ => .error .typeError
      | .str _ | .dict _ => .error .attributeError
    let st ← dayLoop is_language_domain
      ⟨[], false, false, false, false, false⟩ itemsList
    let out :=
      if is_language_domain then
        let l1 :=
          if ¬ st.has_exercise then st.items ++
            [.dict [("id", .str ("d" ++ toString day_index ++ "-exercise-auto")),
                    ("type", .str "practice"),
                    ("label", hiq is_hu "Párbeszéd gyakorlat" "Dialogue practice"),
                    ("topic", hiq is_hu "Interaktív párbeszéd AI-val" "Interactive dialogue with AI"),
                    ("practice_type", .str "exercise"),
                    ("estimated_minutes", .int 8)]]
          else st.items
        let l2 :=
          if ¬ st.has_translation then l1 ++
            [.dict [("id", .str ("d" ++ toString day_index ++ "-translation-auto")),
                    ("type", .str "practice"),
                    ("label", hiq is_hu "Fordítási gyakorlat" "Translation practice"),
                    ("topic", hiq is_hu "Mondatok fordítása" "Sentence translation"),
                    ("practice_type", .str "translation"),
                    ("estimated_minutes", .int 6)]]
          else l1
        if ¬ st.has_writing then l2 ++
          [.dict [("id", .str ("d" ++ toString day_index ++ "-writing-auto")),
                  ("type", .str "practice"),
                  ("label", hiq is_hu "Írási feladat" "Writing task"),
                  ("topic", hiq is_hu "Rövid szöveg írása" "Write a short text"),
                  ("practice_type", .str "writing"),
                  ("estimated_minutes", .int 8)]]
        else l2
      else
        let l1 :=
          if ¬ st.has_quiz then st.items ++
            [.dict [("id", .str ("d" ++ toString day_index ++ "-quiz-auto")),
                    ("type", .str "quiz"),
                    ("label", hiq is_hu "Kvíz" "Quiz"),
                    ("topic", pyGetD data "title" (.str "Napi anyag")),
                    ("estimated_minutes", .int 5)]]
          else st.items
        let l2 :=
          if ¬ st.has_writing then l1 ++
            [.dict [("id", .str ("d" ++ toString day_index ++ "-writing-auto")),
                    ("type", .str "practice"),
                    ("label", hiq is_hu "Összefoglaló" "Summary"),
                    ("topic", hiq is_hu "Írd le a tanultakat" "Summarize what you learned"),
                    ("practice_type", .str "writing"),
                    ("estimated_minutes", .int 5)]]
          else l1
        if ¬ st.has_task then l2 ++
          [.dict [("id", .str ("d" ++ toString day_index ++ "-task-auto")),
                  ("type", .str "task"),
                  ("label", hiq is_hu "Mai feladat" "Today\x27s task"),
                  ("topic", hiq is_hu "Alkalmazd a tanultakat" "Apply what you learned"),
                  ("estimated_minutes", .int 5)]]
        else l2
    pure (dset data "items" (.list out))

/-! ## Basic dictionary lemmas -/

lemma pyGetD_dset_same (d : PyDict) (k : String) (v dflt : PyVal) :
    pyGetD (dset d k v) k dflt = v := by
  induction d with
  | nil => simp [dset, pyGetD, List.find?]
  | cons kv rest ih =>
    by_cases h : kv.1 = k
    · simp [dset, h, pyGetD, List.find?]
    · simp only [dset, h, if_false]
      simpa [pyGetD, List.find?, h] using ih

lemma pyGetD_dset_ne (d : PyDict) (k k' : String) (v dflt : PyVal)
    (h : k' ≠ k) : pyGetD (dset d k' v) k dflt = pyGetD d k dflt := by
  induction d with
  | nil => simp [dset, pyGetD, List.find?, h]
  | cons kv rest ih =>
    by_cases hk : kv.1 = k'
    · simp [dset, hk, pyGetD, List.find?, h, Ne.symm h]
    · simp only [dset, hk, if_false]
      by_cases hk2 : kv.1 = k
      · simp [pyGetD, List.find?, hk2]
      · simpa [pyGetD, List.find?, hk2] using ih

lemma hasKey_dset_same (d : PyDict) (k : String) (v : PyVal) :
    hasKey (dset d k v) k = true := by
  induction d with
  | nil => simp [dset, hasKey]
  | cons kv rest ih =>
    by_cases h : kv.1 = k
    · simp [dset, h, hasKey]
    · simp only [dset, h, if_false]
      simpa [hasKey, h] using ih

lemma pyGetD_append_single_ne (d : PyDict) (k k' : String) (v dflt : PyVal)
    (h : k' ≠ k) : pyGetD (d ++ [(k', v)]) k dflt = pyGetD d k dflt := by
  induction d with
  | nil => simp [pyGetD, List.find?, h]
  | cons kv rest ih =>
    by_cases hk : kv.1 = k
    · simp [pyGetD, List.find?, hk]
    · simpa [pyGetD, List.find?, hk] using ih

lemma pyGetD_setdefault_ne (d : PyDict) (k k' : String) (v dflt : PyVal)
    (h : k' ≠ k) : pyGetD (pySetdefault d k' v) k dflt = pyGetD d k dflt := by
  unfold pySetdefault
  split
  · rfl
  · exact pyGetD_append_single_ne d k k' v dflt h

lemma pyLen_pyIter_length (v : PyVal) (n : Nat) (l : List PyVal)
    (h1 : pyLen v = .ok n) (h2 : pyIter v = .ok l) : l.length = n := by
  cases v with
  | str s =>
    simp only [pyLen, pyIter, Except.ok.injEq] at h1 h2
    subst h1; subst h2
    rw [List.length_map]
    rfl
  | list l2 =>
    simp only [pyLen, pyIter, Except.ok.injEq] at h1 h2
    subst h1; subst h2; rfl
  | dict d =>
    simp only [pyLen, pyIter, Except.ok.injEq] at h1 h2
    subst h1; subst h2
    simp [List.length_map]
  | none => simp [pyLen] at h1
  | bool b => simp [pyLen] at h1
  | int i => simp [pyLen] at h1

/-! ## C6 — LLM-unavailable responses raise immediately, with no retry

(`generate_focus_item`, lines 2044–2047.) -/

/-- C6 (amended): whenever the client response at the current attempt is an
LLM-unavailable response (empty, `Error:`-prefixed, or containing a known
overload substring), `generate_focus_item` raises
`RuntimeError("Claude API temporarily unavailable")` after exactly one LLM
attempt: the response is never parsed as JSON, no retry happens, and no
fallback is produced. -/
theorem generate_focus_item_llm_error (loads : String → Option PyVal)
    (client : Nat → String) (p : GenParams) (retry_count max_retries : Nat)
    (h : is_llm_error (client retry_count) = true) :
    generate_focus_item loads client p retry_count max_retries =
      (.error (.runtimeError "Claude API temporarily unavailable"), 1) := by
  unfold generate_focus_item
  unfold gen_attempt
  simp [h]

/-- C6 witness: a concrete run with the response `"Error: rate limited"`. -/
theorem generate_focus_item_llm_error_witness :
    is_llm_error "Error: rate limited" = true ∧
    generate_focus_item (fun _ => Option.none) (fun _ => "Error: rate limited")
      { item_type := "quiz", practice_type := Option.none, topic := "T",
        label := "C", day_title := "D", domain := "fitness",
        level := "beginner", lang := "hu", minutes := 5, user_goal := "",
        settings := Option.none, preceding_lesson_content := Option.none }
      0 1 =
      (.error (.runtimeError "Claude API temporarily unavailable"), 1) :=
  ⟨by decide,
   generate_focus_item_llm_error (fun _ => Option.none)
     (fun _ => "Error: rate limited") _ 0 1 (by decide)⟩

/-- C6 counterexample: with the response `"Error: rate limited"`,
`max_retries = 1` and the fallback path available, `generate_focus_item`
does **not** proceed to the next retry — it surfaces the failure as a raised
`RuntimeError` after a single attempt. -/
theorem generate_focus_item_llm_error_not_retried :
    generate_focus_item (fun _ => Option.none) (fun _ => "Error: rate limited")
      { item_type := "quiz", practice_type := Option.none, topic := "T",
        label := "C", day_title := "D", domain := "fitness",
        level := "beginner", lang := "hu", minutes := 5, user_goal := "",
        settings := Option.none, preceding_lesson_content := Option.none }
      0 1 =
      (.error (.runtimeError "Claude API temporarily unavailable"), 1) := by
  unfold generate_focus_item
  rfl

/-! ## C2 — domain-safety downgrade of the kind resolution

(`generate_focus_item` lines 1945–1971 together with
`_determine_item_kind`.) -/

lemma kind_map_translation_key (kv : String × String)
    (hmem : kv ∈ KIND_FROM_PRACTICE_TYPE) (hval : kv.2 = "translation") :
    kv.1 = "translation" := by
  fin_cases hmem <;> simp_all

lemma determine_item_kind_ne_translation (it : String) (pt : Option String)
    (hpt : ∀ s, pt = some s → pyStrip (pyLower s) ≠ "translation") :
    determine_item_kind it pt ≠ "translation" := by
  unfold determine_item_kind
  split_ifs <;> try decide
  cases pt with
  | none => decide
  | some p =>
    simp only
    split
    · split
      case _ kv hfind =>
        have hmem := List.mem_of_find?_eq_some hfind
        have hkey : kv.1 = pyStrip (pyLower p) := by
          have := List.find?_some hfind
          simpa using this
        intro hval
        exact hpt p rfl (hkey ▸ kind_map_translation_key kv hmem hval)
      case _ => decide
    · decide

/-- C2 (amended): for every domain whose lowercased, defaulted form is
outside `{language_learning, language}`, and every `practice_type` whose
lowercased form is already whitespace-trimmed (the guard compares the
lowercased but *unstripped* value, while `_determine_item_kind` strips it,
so whitespace-padded values evade the guard), the resolved kind is never
`translation`; an `item_type` in `{translation, flashcard, cards}` resolves
to `quiz`; a language-only `practice_type` is dropped before kind
resolution; and `resolve_item_kind("translation", None, "fitness") = "quiz"`. -/
lemma resolve_coerce_ne_translation (it1 : String) (k0 : String)
    (hk : k0 ≠ "translation") :
    (if k0 ∈ ALLOWED_KINDS then k0
     else if pyLower it1 = "lesson" then "content" else "checklist") ≠
      "translation" := by
  split
  · exact hk
  · split <;> decide

theorem resolve_item_kind_domain_safety (it : String) (pt : Option String)
    (dom : String)
    (hdom : pyLower (if dom = "" then "other" else dom) ∉
      (["language_learning", "language"] : List String))
    (hpt : ∀ s, pt = some s → pyStrip (pyLower s) = pyLower s) :
    resolve_item_kind it pt dom ≠ "translation" ∧
    (pyLower (if it = "" then "lesson" else it) ∈ LANGUAGE_ONLY_TYPES →
      resolve_item_kind it pt dom = "quiz") ∧
    (∀ s, pt = some s → pyLower s ∈ LANGUAGE_ONLY_PRACTICE_TYPES →
      resolve_item_kind it pt dom = resolve_item_kind it Option.none dom) ∧
    resolve_item_kind "translation" Option.none "fitness" = "quiz" := by
  simp only [List.mem_cons, List.not_mem_nil, or_false] at hdom
  push_neg at hdom
  have hd1 := eq_false hdom.1
  have hd2 := eq_false hdom.2
  have h0 : (("" : String) ∈ LANGUAGE_ONLY_PRACTICE_TYPES) = False := by decide
  have hqz : determine_item_kind "quiz" Option.none = "quiz" := by decide
  have hqzA : determine_item_kind "quiz" Option.none ∈ ALLOWED_KINDS := by decide
  cases pt with
  | none =>
    refine ⟨?_, ?_, ?_, by decide⟩
    · unfold resolve_item_kind domain_guard
      simp only [hd1, hd2, or_self, not_false_iff, true_and, h0, if_false]
      by_cases hA : pyLower (if it = "" then "lesson" else it) ∈ LANGUAGE_ONLY_TYPES
      · simp only [hA, if_true]
        exact resolve_coerce_ne_translation _ _ (by decide)
      · simp only [hA, if_false]
        exact resolve_coerce_ne_translation _ _
          (determine_item_kind_ne_translation _ _ (by intro s hs; cases hs))
    · intro hA
      unfold resolve_item_kind domain_guard
      simp only [hd1, hd2, or_self, not_false_iff, true_and, h0, if_false, hA,
        if_true]
      rw [if_pos hqzA, hqz]
    · intro s hs
      cases hs
  | some q =>
    have hptq : pyStrip (pyLower q) = pyLower q := hpt q rfl
    refine ⟨?_, ?_, ?_, by decide⟩
    · unfold resolve_item_kind domain_guard
      simp only [hd1, hd2, or_self, not_false_iff, true_and]
      by_cases hB : pyLower q ∈ LANGUAGE_ONLY_PRACTICE_TYPES
      · simp only [hB, if_true]
        by_cases hA : pyLower (if it = "" then "lesson" else it) ∈ LANGUAGE_ONLY_TYPES
        · simp only [hA, if_true]
          exact resolve_coerce_ne_translation _ _ (by decide)
        · simp only [hA, if_false]
          exact resolve_coerce_ne_translation _ _
            (determine_item_kind_ne_translation _ _ (by intro s hs; cases hs))
      · simp only [hB, if_false]
        by_cases hA : pyLower (if it = "" then "lesson" else it) ∈ LANGUAGE_ONLY_TYPES
        · simp only [hA, if_true]
          exact resolve_coerce_ne_translation _ _ (by decide)
        · simp only [hA, if_false]
          refine resolve_coerce_ne_translation _ _
            (determine_item_kind_ne_translation _ _ ?_)
          intro s hs
          cases hs
          rw [hptq]
          intro hEq
          apply hB
          rw [hEq]
          decide
    · intro hA
      unfold resolve_item_kind domain_guard
      simp only [hd1, hd2, or_self, not_false_iff, true_and, hA, if_true]
      by_cases hB : pyLower q ∈ LANGUAGE_ONLY_PRACTICE_TYPES
      · simp only [hB, if_true]
        rw [if_pos hqzA, hqz]
      · simp only [hB, if_false]
        rw [if_pos hqzA, hqz]
    · intro s hs hmem
      cases hs
      unfold resolve_item_kind domain_guard
      simp only [hd1, hd2, or_self, not_false_iff, true_and, hmem, h0, if_true,
        if_false]
      by_cases hA : pyLower (if it = "" then "lesson" else it) ∈ LANGUAGE_ONLY_TYPES
      · simp only [hA, if_true]
      · simp only [hA, if_false]

/-- C2 witness: a concrete non-language call through the amended theorem. -/
theorem resolve_item_kind_domain_safety_witness :
    resolve_item_kind "translation" (some "exercise") "fitness" ≠ "translation" ∧
    (pyLower (if "translation" = "" then "lesson" else "translation") ∈
        LANGUAGE_ONLY_TYPES →
      resolve_item_kind "translation" (some "exercise") "fitness" = "quiz") ∧
    (∀ s, (some "exercise" : Option String) = some s →
      pyLower s ∈ LANGUAGE_ONLY_PRACTICE_TYPES →
      resolve_item_kind "translation" (some "exercise") "fitness" =
        resolve_item_kind "translation" Option.none "fitness") ∧
    resolve_item_kind "translation" Option.none "fitness" = "quiz" :=
  resolve_item_kind_domain_safety "translation" (some "exercise") "fitness"
    (by decide) (by intro s hs; cases hs; decide)

/-- C2 counterexample: the guard compares the lowercased but unstripped
`practice_type`, while `_determine_item_kind` lowercases *and strips* it —
so the whitespace-padded practice type `" translation "` in the non-language
domain `fitness` resolves to kind `translation`, not to a safe kind. -/
theorem resolve_item_kind_whitespace_escape :
    resolve_item_kind "practice" (some " translation ") "fitness" =
      "translation" := by
  decide

/-! ## C1 — retry exhaustion returns the deterministic fallback, but the
`roleplay`, `translation` and `cards` fallbacks fail the validator

With `max_retries = 0` and an unparsable LLM response, `generate_focus_item`
makes exactly one attempt and returns `_create_fallback_item`'s output — but
for the kinds served by the generic `else` branch of the fallback builder
(`content = {"summary": topic}`), that output is rejected by
`_validate_focus_item` itself. -/

/-- C1: with `max_retries = 0` and an unparsable response, a roleplay
practice item in a language domain falls back after exactly one attempt to
the deterministic fallback — whose own validation is
`(False, "Roleplay must have opening_line")`, not `(True, "")`. -/
theorem generate_focus_item_roleplay_fallback_rejected :
    generate_focus_item (fun _ => Option.none) (fun _ => "nem JSON valasz")
      { item_type := "practice", practice_type := some "roleplay",
        topic := "Tárgyalás", label := "Szerepjáték", day_title := "Nap 2",
        domain := "language_learning", level := "beginner", lang := "hu",
        minutes := 5, user_goal := "", settings := Option.none,
        preceding_lesson_content := Option.none }
      0 0 =
      (.ok (create_fallback_item "roleplay" "Tárgyalás" "Szerepjáték" "hu" 5
        "language_learning"), 1) ∧
    validate_focus_item (create_fallback_item "roleplay" "Tárgyalás"
        "Szerepjáték" "hu" 5 "language_learning") =
      .ok (false, "Roleplay must have opening_line") ∧
    validate_focus_item (create_fallback_item "translation" "Tárgyalás"
        "Szerepjáték" "hu" 5 "language_learning") =
      .ok (false, "Translation must have at least 1 item") ∧
    validate_focus_item (create_fallback_item "cards" "Tárgyalás"
        "Szerepjáték" "hu" 5 "language_learning") =
      .ok (false, "Cards must have at least 3 cards") :=
  ⟨by unfold generate_focus_item; rfl, by rfl, by rfl, by rfl⟩

/-! ## C9 — JSON extraction always terminates with a dict or `None` -/

lemma findSubIdx_isPrefix (pat l : List Char) (i : Nat)
    (h : findSubIdx pat l = some i) : pat.isPrefixOf (l.drop i) = true := by
  induction l generalizing i with
  | nil =>
    unfold findSubIdx at h
    split at h
    · cases h
      simp_all
    · cases h
  | cons c rest ih =>
    unfold findSubIdx at h
    split at h
    · cases h
      simpa using (by assumption : pat.isPrefixOf (c :: rest) = true)
    · simp only [Option.map_eq_some'] at h
      obtain ⟨j, hj, hij⟩ := h
      subst hij
      simpa using ih j hj

lemma braceScan_some (cs : List Char) :
    ∀ depth instr esc (acc r : List Char),
      braceScan cs depth instr esc acc = some r →
      ∃ pre, pre ≠ [] ∧ r = acc.reverse ++ pre ∧ List.IsPrefix pre cs := by
  induction cs with
  | nil => intro depth instr esc acc r h; cases h
  | cons c rest ih =>
    intro depth instr esc acc r h
    unfold braceScan at h
    have step : ∀ d' i' e' (hrec : braceScan rest d' i' e' (c :: acc) = some r),
        ∃ pre, pre ≠ [] ∧ r = acc.reverse ++ pre ∧ List.IsPrefix pre (c :: rest) := by
      intro d' i' e' hrec
      obtain ⟨pre', hne, hr, hpre⟩ := ih d' i' e' (c :: acc) r hrec
      refine ⟨c :: pre', by simp, ?_, ?_⟩
      · rw [hr]; simp
      · exact (List.prefix_cons_inj c).mpr hpre
    split at h
    · exact step _ _ _ h
    · split at h
      · exact step _ _ _ h
      · split at h
        · exact step _ _ _ h
        · split at h
          · exact step _ _ _ h
          · split at h
            · exact step _ _ _ h
            · split at h
              · split at h
                · cases h
                  exact ⟨[c], by simp, by simp, by simp⟩
                · exact step _ _ _ h
              · exact step _ _ _ h

lemma mem_pyStrip (c : Char) (s : String) (h : c ∈ (pyStrip s).data) :
    c ∈ s.data := by
  unfold pyStrip at h
  simp only [String.data] at h
  rw [List.mem_reverse] at h
  have h2 := (List.dropWhile_sublist (p := isPySpace)
    (l := (s.data.dropWhile isPySpace).reverse)).subset h
  rw [List.mem_reverse] at h2
  exact (List.dropWhile_sublist (p := isPySpace) (l := s.data)).subset h2

lemma mem_cut_fences (c : Char) (s : String) (h : c ∈ (cut_fences s).data) :
    c ∈ s.data := by
  unfold cut_fences at h
  have htake : ∀ (l : List Char) (n : Nat), c ∈ l.take n → c ∈ l :=
    fun l n hc => (List.take_sublist n l).subset hc
  have hdrop : ∀ (l : List Char) (n : Nat), c ∈ l.drop n → c ∈ l :=
    fun l n hc => (List.drop_sublist n l).subset hc
  by_cases h1 : containsSub "```" s = true
  · rw [if_pos h1] at h
    by_cases h2 : containsSub "```json" s = true
    · rw [if_pos h2] at h
      cases hf : findSubIdx "```json".data s.data with
      | none => simp only [hf] at h; exact h
      | some e =>
        simp only [hf] at h
        cases hg : findSubIdx "```".data (s.data.drop (e + 7)) with
        | none => simp only [hg] at h; exact hdrop _ _ h
        | some e2 => simp only [hg] at h; exact hdrop _ _ (htake _ _ h)
    · rw [if_neg h2] at h
      cases hf : findSubIdx "```".data s.data with
      | none => simp only [hf] at h; exact h
      | some e =>
        simp only [hf] at h
        cases hg : findSubIdx "```".data (s.data.drop (e + 3)) with
        | none => simp only [hg] at h; exact hdrop _ _ h
        | some e2 => simp only [hg] at h; exact hdrop _ _ (htake _ _ h)
  · rw [if_neg h1] at h
    exact h

lemma findSubIdx_single_mem (c : Char) (l : List Char) (i : Nat)
    (h : findSubIdx [c] l = some i) : c ∈ l := by
  have hpre := findSubIdx_isPrefix [c] l i h
  rw [List.isPrefixOf_iff_prefix] at hpre
  obtain ⟨t, ht⟩ := hpre
  have : c ∈ l.drop i := by rw [← ht]; simp
  exact List.mem_of_mem_drop this

lemma extract_scan_dict (loads : String → Option PyVal)
    (hl : ∀ s v, loads s = some v → strStartsWith s "\x7b" = true →
      ∃ d, v = PyVal.dict d)
    (s : String) (v : PyVal) (h : extract_scan loads s = some v) :
    ∃ d, v = PyVal.dict d := by
  unfold extract_scan at h
  cases hf : findSubIdx ['\x7b'] s.data with
  | none => simp [hf] at h
  | some start =>
    simp only [hf] at h
    cases hb : braceScan (s.data.drop start) 0 false false [] with
    | none => simp [hb] at h
    | some cand =>
      simp only [hb] at h
      apply hl _ _ h
      obtain ⟨pre, hne, hr, hpre⟩ := braceScan_some _ _ _ _ _ _ hb
      have hdrop := findSubIdx_isPrefix _ _ _ hf
      rw [List.isPrefixOf_iff_prefix] at hdrop
      obtain ⟨t, ht⟩ := hdrop
      cases pre with
      | nil => exact absurd rfl hne
      | cons p0 ps =>
        rw [← ht] at hpre
        simp only [List.singleton_append, List.cons_prefix_cons] at hpre
        unfold strStartsWith
        rw [hr]
        simp only [List.reverse_nil, List.nil_append]
        rw [hpre.1]
        simp [List.isPrefixOf]

lemma extract_core_none (loads : String → Option PyVal) (s : String)
    (h : '\x7b' ∉ s.data) : extract_core loads s = Option.none := by
  have h1 : strStartsWith s "\x7b" = false := by
    by_contra hc
    rw [Bool.not_eq_false] at hc
    unfold strStartsWith at hc
    rw [List.isPrefixOf_iff_prefix] at hc
    obtain ⟨t, ht⟩ := hc
    exact h (by rw [← ht]; simp)
  have h2 : extract_scan loads s = Option.none := by
    unfold extract_scan
    cases hf : findSubIdx ['\x7b'] s.data with
    | none => rfl
    | some start => exact absurd (findSubIdx_single_mem _ _ _ hf) h
  unfold extract_core
  rw [if_neg (by simp [h1])]
  exact h2

lemma extract_core_some_dict (loads : String → Option PyVal)
    (hl : ∀ s v, loads s = some v → strStartsWith s "\x7b" = true →
      ∃ d, v = PyVal.dict d)
    (s : String) (v : PyVal) (h : extract_core loads s = some v) :
    ∃ d, v = PyVal.dict d := by
  unfold extract_core at h
  by_cases hfast : strStartsWith s "\x7b" = true ∧ strEndsWith s "\x7d" = true
  · rw [if_pos hfast] at h
    cases hld : loads s with
    | some w =>
      simp only [hld] at h
      cases h
      exact hl _ _ hld hfast.1
    | none =>
      simp only [hld] at h
      exact extract_scan_dict loads hl s v h
  · rw [if_neg hfast] at h
    simp only [] at h
    exact extract_scan_dict loads hl s v h

theorem extract_json_object_shape (loads : String → Option PyVal)
    (text : String)
    (hl : ∀ s v, loads s = some v → strStartsWith s "\x7b" = true →
      ∃ d, v = PyVal.dict d) :
    (∀ v, extract_json_object loads (strip_json_fences text) = some v →
      ∃ d, v = PyVal.dict d) ∧
    (∀ u : String, '\x7b' ∉ u.data →
      extract_json_object loads u = Option.none) := by
  constructor
  · intro v h
    unfold extract_json_object at h
    split at h
    · cases h
    · exact extract_core_some_dict loads hl _ v h
  · intro u hu
    unfold extract_json_object
    split
    · rfl
    · exact extract_core_none loads _ (fun hc => hu
        (mem_pyStrip _ _ (mem_cut_fences _ _ (mem_pyStrip _ _ hc))))

/-- C9 witness: a failing `json.loads` oracle and a brace-free input. -/
theorem extract_json_object_shape_witness :
    (∀ v, extract_json_object (fun _ => Option.none)
        (strip_json_fences "plain text answer") = some v →
      ∃ d, v = PyVal.dict d) ∧
    (∀ u : String, '\x7b' ∉ u.data →
      extract_json_object (fun _ => Option.none) u = Option.none) :=
  extract_json_object_shape (fun _ => Option.none) "plain text answer"
    (fun _ _ h _ => nomatch h)

/-! ## C8 — language-domain day normalization guarantees the three
required practice types -/

/-- The day's item list contains a dict item whose `practice_type`
lowercases to `ptype`. -/
def HasPractice (l : List PyVal) (ptype : String) : Prop :=
  ∃ v ∈ l, ∃ vd s, v = PyVal.dict vd ∧
    pyGetD vd "practice_type" PyVal.none = .str s ∧ pyLower s = ptype

lemma HasPractice_append_left (l l2 : List PyVal) (ptype : String)
    (h : HasPractice l ptype) : HasPractice (l ++ l2) ptype := by
  obtain ⟨v, hv, rest⟩ := h
  exact ⟨v, List.mem_append_left _ hv, rest⟩

lemma HasPractice_stub (l : List PyVal) (d : PyDict) (s pt : String)
    (h1 : pyGetD d "practice_type" PyVal.none = .str s) (h2 : pyLower s = pt) :
    HasPractice (l ++ [PyVal.dict d]) pt :=
  ⟨PyVal.dict d, List.mem_append_right _ (List.mem_singleton_self _), d, s, rfl, h1, h2⟩

lemma HasPractice_ite_append (c : Prop) [Decidable c] (l l2 : List PyVal) (pt : String)
    (h : HasPractice l pt) : HasPractice (if c then l ++ l2 else l) pt := by
  split
  · exact HasPractice_append_left _ _ _ h
  · exact h

lemma getLowerStr_ok_nonempty (item : PyVal) (k : String) (r : String)
    (h : getLowerStr item k = .ok r) (hr : r ≠ "") :
    ∃ d s, item = PyVal.dict d ∧ pyGetD d k PyVal.none = .str s ∧
      pyLower s = r := by
  unfold getLowerStr at h
  cases item with
  | dict d =>
    simp only [mGet, ok_bind] at h
    split at h
    · cases h; exact absurd rfl hr
    · split at h
      case _ sv heq =>
        simp only [pure, Except.pure, Except.ok.injEq] at h
        exact ⟨d, sv, rfl, heq, h⟩
      case _ => cases h
  | none => simp [mGet] at h
  | bool b => simp [mGet] at h
  | int i => simp [mGet] at h
  | str s2 => simp [mGet] at h
  | list l => simp [mGet] at h

/-- The three-practice-type invariant carried through the day loop. -/
def DayInv (st : DayLoopState) : Prop :=
  (st.has_exercise = true → HasPractice st.items "exercise") ∧
  (st.has_translation = true → HasPractice st.items "translation") ∧
  (st.has_writing = true → HasPractice st.items "writing")

/-- A single item carrying the given (lowercased) practice type. -/
def ItemHas (v : PyVal) (pt : String) : Prop :=
  ∃ vd s, v = PyVal.dict vd ∧
    pyGetD vd "practice_type" PyVal.none = .str s ∧ pyLower s = pt

lemma getLowerStr_ok_dict (item : PyVal) (k : String) (r : String)
    (h : getLowerStr item k = .ok r) : ∃ d, item = PyVal.dict d := by
  cases item <;> simp [getLowerStr, mGet] at h
  exact ⟨_, rfl⟩

lemma dayLoopStep_spec (ild : Bool) (st : DayLoopState) (item : PyVal)
    (st' : DayLoopState) (h : dayLoopStep ild st item = .ok st') :
    ∃ item2 pt,
      st'.items = st.items ++ [item2] ∧
      (st'.has_exercise = true ↔ (st.has_exercise = true ∨ pt = "exercise")) ∧
      (st'.has_translation = true ↔ (st.has_translation = true ∨ pt = "translation")) ∧
      (st'.has_writing = true ↔ (st.has_writing = true ∨ pt = "writing")) ∧
      (pt ≠ "" → ItemHas item2 pt) := by
  unfold dayLoopStep at h
  cases hT : getLowerStr item "type" with
  | error e => simp [hT] at h
  | ok it0 =>
  simp only [hT, ok_bind] at h
  cases hP : getLowerStr item "practice_type" with
  | error e => simp [hP] at h
  | ok pt0 =>
  simp only [hP, ok_bind] at h
  obtain ⟨d, rfl⟩ := getLowerStr_ok_dict item "type" it0 hT
  have hpt0 : pt0 ≠ "" → ∃ s, pyGetD d "practice_type" PyVal.none = .str s ∧
      pyLower s = pt0 := by
    intro hne
    obtain ⟨d2, s2, hd2, hg, hl2⟩ := getLowerStr_ok_nonempty _ _ _ hP hne
    cases hd2
    exact ⟨s2, hg, hl2⟩
  by_cases hild : ild = true
  · rw [hild] at h
    simp at h
    split at h
    case _ newPt heq =>
      by_cases hm1 : pt0 = "roleplay" ∨ pt0 = "dialogue" ∨ pt0 = "conversation"
      · rw [if_pos hm1] at heq
        cases heq
        simp only [pure, Except.pure, Except.ok.injEq] at h
        subst h
        refine ⟨_, "exercise", rfl, by simp, by simp, by simp, fun _ => ?_⟩
        exact ⟨_, "exercise", rfl, pyGetD_dset_same _ _ _ _, by decide⟩
      · rw [if_neg hm1] at heq
        by_cases hm2 : pt0 = "drill"
        · rw [if_pos hm2] at heq
          cases heq
          simp only [pure, Except.pure, Except.ok.injEq] at h
          subst h
          refine ⟨_, "translation", rfl, by simp, by simp, by simp, fun _ => ?_⟩
          exact ⟨_, "translation", rfl, pyGetD_dset_same _ _ _ _, by decide⟩
        · rw [if_neg hm2] at heq
          cases heq
    case _ heq =>
      by_cases hm1 : pt0 = "roleplay" ∨ pt0 = "dialogue" ∨ pt0 = "conversation"
      · rw [if_pos hm1] at heq
        cases heq
      · rw [if_neg hm1] at heq
        by_cases hm2 : pt0 = "drill"
        · rw [if_pos hm2] at heq
          cases heq
        · simp only [pure, Except.pure, Except.ok.injEq] at h
          subst h
          refine ⟨_, pt0, rfl, by simp, by simp, by simp, fun hne => ?_⟩
          obtain ⟨s, hg, hl⟩ := hpt0 hne
          exact ⟨d, s, rfl, hg, hl⟩
  · have hild' : ild = false := by cases ild <;> simp_all
    rw [hild'] at h
    by_cases hB1 : pt0 ∈ LANGUAGE_ONLY_PRACTICE_TYPES
    · by_cases hB2 : it0 ∈ (["flashcard", "translation"] : List String)
      · simp only [LANGUAGE_ONLY_PRACTICE_TYPES, List.mem_cons,
          List.mem_singleton, List.not_mem_nil, or_false] at hB1 hB2 ⊢
        simp [LANGUAGE_ONLY_PRACTICE_TYPES, hB1, hB2] at h
        simp only [pure, Except.pure, Except.ok.injEq] at h
        subst h
        refine ⟨_, "writing", rfl, by simp, by simp, by simp, fun _ => ?_⟩
        refine ⟨_, "writing", rfl, ?_, by decide⟩
        rw [pyGetD_dset_ne _ _ _ _ _ (by decide)]
        exact pyGetD_dset_same _ _ _ _
      · simp only [LANGUAGE_ONLY_PRACTICE_TYPES, List.mem_cons,
          List.mem_singleton, List.not_mem_nil, or_false] at hB1 hB2 ⊢
        simp [LANGUAGE_ONLY_PRACTICE_TYPES, hB1, hB2] at h
        simp only [pure, Except.pure, Except.ok.injEq] at h
        subst h
        refine ⟨_, "writing", rfl, by simp, by simp, by simp, fun _ => ?_⟩
        exact ⟨_, "writing", rfl, pyGetD_dset_same _ _ _ _, by decide⟩
    · by_cases hB2 : it0 ∈ (["flashcard", "translation"] : List String)
      · simp only [LANGUAGE_ONLY_PRACTICE_TYPES, List.mem_cons,
          List.mem_singleton, List.not_mem_nil, or_false] at hB1 hB2 ⊢
        simp [LANGUAGE_ONLY_PRACTICE_TYPES, hB1, hB2] at h
        simp only [pure, Except.pure, Except.ok.injEq] at h
        subst h
        refine ⟨_, pt0, rfl, by simp, by simp, by simp, fun hne => ?_⟩
        obtain ⟨s, hg, hl⟩ := hpt0 hne
        refine ⟨_, s, rfl, ?_, hl⟩
        rw [pyGetD_dset_ne _ _ _ _ _ (by decide)]
        exact hg
      · simp only [LANGUAGE_ONLY_PRACTICE_TYPES, List.mem_cons,
          List.mem_singleton, List.not_mem_nil, or_false] at hB1 hB2 ⊢
        simp [LANGUAGE_ONLY_PRACTICE_TYPES, hB1, hB2] at h
        simp only [pure, Except.pure, Except.ok.injEq] at h
        subst h
        refine ⟨_, pt0, rfl, by simp, by simp, by simp, fun hne => ?_⟩
        obtain ⟨s, hg, hl⟩ := hpt0 hne
        exact ⟨d, s, rfl, hg, hl⟩

lemma dayLoop_inv (ild : Bool) (l : List PyVal) :
    ∀ (st st' : DayLoopState), dayLoop ild st l = .ok st' →
      DayInv st → DayInv st' := by
  induction l with
  | nil =>
    intro st st' h hinv
    unfold dayLoop at h
    simp only [pure, Except.pure, Except.ok.injEq] at h
    subst h
    exact hinv
  | cons item rest ih =>
    intro st st' h hinv
    unfold dayLoop at h
    cases hstep : dayLoopStep ild st item with
    | error e => simp [hstep] at h
    | ok st1 =>
      simp only [hstep, ok_bind] at h
      apply ih st1 st' h
      obtain ⟨item2, pt, hitems, he, ht, hw, hih⟩ :=
        dayLoopStep_spec _ _ _ _ hstep
      have hmem2 : item2 ∈ st1.items := by
        rw [hitems]; exact List.mem_append_right _ (by simp)
      refine ⟨?_, ?_, ?_⟩
      · intro hx
        rcases he.mp hx with hold | hpt
        · rw [hitems]
          exact HasPractice_append_left _ _ _ (hinv.1 hold)
        · obtain ⟨vd, s2, hi2, hg, hl⟩ := hih (by rw [hpt]; decide)
          exact ⟨item2, hmem2, vd, s2, hi2, hg, by rw [hl, hpt]⟩
      · intro hx
        rcases ht.mp hx with hold | hpt
        · rw [hitems]
          exact HasPractice_append_left _ _ _ (hinv.2.1 hold)
        · obtain ⟨vd, s2, hi2, hg, hl⟩ := hih (by rw [hpt]; decide)
          exact ⟨item2, hmem2, vd, s2, hi2, hg, by rw [hl, hpt]⟩
      · intro hx
        rcases hw.mp hx with hold | hpt
        · rw [hitems]
          exact HasPractice_append_left _ _ _ (hinv.2.2 hold)
        · obtain ⟨vd, s2, hi2, hg, hl⟩ := hih (by rw [hpt]; decide)
          exact ⟨item2, hmem2, vd, s2, hi2, hg, by rw [hl, hpt]⟩

/-- C8: normalizing a day-structure dict in a language domain (and not on a
fixed-structure track — the only call site passes no settings at all)
guarantees the resulting items list contains at least one `exercise`, one
`translation` and one `writing` practice item; the normalization pass
injects a stub for each missing type. -/
theorem normalize_focus_day_items_language_minimums
    (data : PyDict) (day_index : Int) (is_hu : Bool) (domain : String)
    (settings : Option PyDict) (d' : PyDict)
    (hdom : pyLower (if domain = "" then "other" else domain) = "language_learning" ∨
            pyLower (if domain = "" then "other" else domain) = "language")
    (htrack : ¬ (pyEqStr (pyGetD (settings.getD []) "track" (.str "")) "career_language" = true ∨
                 pyEqStr (pyGetD (settings.getD []) "track" (.str "")) "foundations_language" = true))
    (h : normalize_focus_day_items data day_index is_hu domain settings = .ok d') :
    ∃ l, pyGetD d' "items" PyVal.none = .list l ∧
      HasPractice l "exercise" ∧ HasPractice l "translation" ∧
      HasPractice l "writing" := by
  unfold normalize_focus_day_items at h
  rw [if_neg htrack] at h
  cases hitems : pyGetD data "items" (.list []) with
  | none => rw [hitems] at h; simp at h
  | bool b => rw [hitems] at h; simp at h
  | int i => rw [hitems] at h; simp at h
  | str s => rw [hitems] at h; simp at h
  | dict dd => rw [hitems] at h; simp at h
  | list items =>
    rw [hitems] at h
    simp only [pure, Except.pure, ok_bind] at h
    cases hloop : dayLoop
        (decide (pyLower (if domain = "" then "other" else domain) = "language_learning" ∨
          pyLower (if domain = "" then "other" else domain) = "language"))
        ⟨[], false, false, false, false, false⟩ items with
    | error e => rw [hloop] at h; simp at h
    | ok st =>
      rw [hloop] at h
      simp only [ok_bind] at h
      have hinv : DayInv st :=
        dayLoop_inv _ _ _ _ hloop ⟨by simp, by simp, by simp⟩
      rw [if_pos hdom] at h
      simp only [Except.ok.injEq] at h
      subst h
      refine ⟨_, pyGetD_dset_same _ _ _ _, ?_, ?_, ?_⟩
      · -- exercise
        by_cases hE : st.has_exercise = true
        · apply HasPractice_ite_append
          apply HasPractice_ite_append
          apply HasPractice_ite_append
          exact hinv.1 hE
        · apply HasPractice_ite_append
          apply HasPractice_ite_append
          rw [if_pos hE]
          exact HasPractice_stub _ _ "exercise" _ rfl (by decide)
      · -- translation
        by_cases hT : st.has_translation = true
        · apply HasPractice_ite_append
          apply HasPractice_ite_append
          apply HasPractice_ite_append
          exact hinv.2.1 hT
        · apply HasPractice_ite_append
          rw [if_pos hT]
          exact HasPractice_stub _ _ "translation" _ rfl (by decide)
      · -- writing
        by_cases hW : st.has_writing = true
        · apply HasPractice_ite_append
          apply HasPractice_ite_append
          apply HasPractice_ite_append
          exact hinv.2.2 hW
        · rw [if_pos hW]
          exact HasPractice_stub _ _ "writing" _ rfl (by decide)

/-- C8 witness: an empty language-domain day gets all three stubs. -/
theorem normalize_focus_day_items_language_minimums_witness :
    ∃ l, pyGetD ((normalize_focus_day_items [("items", PyVal.list [])] 1 true
        "language" Option.none).toOption.getD []) "items" PyVal.none =
        PyVal.list l ∧
      HasPractice l "exercise" ∧ HasPractice l "translation" ∧
      HasPractice l "writing" :=
  normalize_focus_day_items_language_minimums [("items", PyVal.list [])] 1 true
    "language" Option.none _ (by decide) (by decide) (by rfl)


/-! ## C4 — `require_interaction` is false exactly for the read-only kinds -/

lemma pyGetD_pySetdefault_ne (d : PyDict) (k k2 : String) (v dflt : PyVal)
    (h : k2 ≠ k) : pyGetD (pySetdefault d k2 v) k dflt = pyGetD d k dflt := by
  unfold pySetdefault
  split
  · rfl
  · exact pyGetD_append_single_ne d k k2 v dflt h

/-- The parameter rewriting done at the top of `generate_focus_item`
(defensive coercions plus the domain guard). -/
def guarded_params (p : GenParams) : GenParams :=
  let domain := if p.domain = "" then "other" else p.domain
  let gp := domain_guard (if p.item_type = "" then "lesson" else p.item_type)
    p.practice_type domain
  { p with
    item_type := gp.1
    practice_type := gp.2
    domain := domain
    lang := if p.lang = "" then "hu" else p.lang
    level := if p.level = "" then "beginner" else p.level }

/-- One unfolding of the retry controller, phrased with the named helpers. -/
lemma generate_focus_item_step (loads : String → Option PyVal)
    (client : Nat → String) (p : GenParams) (retry_count max_retries : Nat) :
    generate_focus_item loads client p retry_count max_retries =
    (match gen_attempt loads (client retry_count)
        (resolve_item_kind p.item_type p.practice_type p.domain)
        (guarded_params p) retry_count max_retries with
     | .error e => (.error e, 1)
     | .ok (some d) => (.ok d, 1)
     | .ok Option.none =>
       if retry_count < max_retries then
         ((generate_focus_item loads client (guarded_params p)
             (retry_count + 1) max_retries).1,
          (generate_focus_item loads client (guarded_params p)
             (retry_count + 1) max_retries).2 + 1)
       else
         (.ok (if chainTruthy p.preceding_lesson_content ∧
                 resolve_item_kind p.item_type p.practice_type p.domain ≠ "content"
               then dset (create_fallback_item
                   (resolve_item_kind p.item_type p.practice_type p.domain)
                   p.topic p.label (if p.lang = "" then "hu" else p.lang)
                   p.minutes (if p.domain = "" then "other" else p.domain))
                 "chain_version" (.str "lesson_v2")
               else create_fallback_item
                   (resolve_item_kind p.item_type p.practice_type p.domain)
                   p.topic p.label (if p.lang = "" then "hu" else p.lang)
                   p.minutes (if p.domain = "" then "other" else p.domain)), 1)) := by
  conv_lhs => rw [generate_focus_item]
  rfl

/-- `require_interaction` layout forced on every parsed LLM item
(lines 2080–2090). -/
lemma force_item_fields_ri (d0 : PyDict) (kind : String) (chain : Bool)
    (d4 : PyDict) (h : force_item_fields d0 kind chain = .ok d4) :
    pyGetD d4 "kind" PyVal.none = .str kind ∧
    ∃ vd b, pyGetD d4 "validation" PyVal.none = .dict vd ∧
      pyGetD vd "require_interaction" PyVal.none = .bool b ∧
      (b = false ↔ (kind = "content" ∨ kind = "briefing" ∨ kind = "feedback")) := by
  unfold force_item_fields at h
  by_cases hk : kind ∈ (["content", "briefing", "feedback"] : List String)
  · rw [if_pos hk] at h
    cases hv : pyGetD (pySetdefault (dset d0 "kind" (.str kind)) "validation"
        (.dict [])) "validation" PyVal.none with
    | dict vd =>
      rw [hv] at h
      simp only [Except.ok.injEq] at h
      subst h
      refine ⟨?_, dset vd "require_interaction" (.bool false), false, ?_,
        pyGetD_dset_same _ _ _ _, ?_⟩
      · rw [pyGetD_dset_ne _ _ _ _ _ (by decide),
          pyGetD_dset_ne _ _ _ _ _ (by decide),
          pyGetD_pySetdefault_ne _ _ _ _ _ (by decide),
          pyGetD_dset_same]
      · rw [pyGetD_dset_ne _ _ _ _ _ (by decide), pyGetD_dset_same]
      · exact ⟨fun _ => by simpa using hk, fun _ => rfl⟩
    | none => rw [hv] at h; simp at h
    | bool b => rw [hv] at h; simp at h
    | int i => rw [hv] at h; simp at h
    | str s => rw [hv] at h; simp at h
    | list l => rw [hv] at h; simp at h
  · rw [if_neg hk] at h
    cases hv : pyGetD (pySetdefault (dset d0 "kind" (.str kind)) "validation"
        (.dict [])) "validation" PyVal.none with
    | dict vd =>
      rw [hv] at h
      simp only [Except.ok.injEq] at h
      subst h
      split
      · refine ⟨?_, dset vd "require_interaction" (.bool true), true, ?_,
          pyGetD_dset_same _ _ _ _, ?_⟩
        · rw [pyGetD_dset_ne _ _ _ _ _ (by decide),
            pyGetD_dset_ne _ _ _ _ _ (by decide),
            pyGetD_pySetdefault_ne _ _ _ _ _ (by decide),
            pyGetD_dset_same]
        · rw [pyGetD_dset_ne _ _ _ _ _ (by decide), pyGetD_dset_same]
        · exact ⟨fun ht => Bool.noConfusion ht,
            fun hor => absurd (by simpa using hor) hk⟩
      · refine ⟨?_, dset vd "require_interaction" (.bool true), true, ?_,
          pyGetD_dset_same _ _ _ _, ?_⟩
        · rw [pyGetD_dset_ne _ _ _ _ _ (by decide),
            pyGetD_pySetdefault_ne _ _ _ _ _ (by decide),
            pyGetD_dset_same]
        · rw [pyGetD_dset_same]
        · exact ⟨fun ht => Bool.noConfusion ht,
            fun hor => absurd (by simpa using hor) hk⟩
    | none => rw [hv] at h; simp at h
    | bool b => rw [hv] at h; simp at h
    | int i => rw [hv] at h; simp at h
    | str s => rw [hv] at h; simp at h
    | list l => rw [hv] at h; simp at h

/-- Every successfully accepted per-attempt item is an output of the
field-forcing pass for the resolved kind. -/
lemma gen_attempt_some_shape (loads : String → Option PyVal) (text kind : String)
    (p : GenParams) (rc mr : Nat) (d : PyDict)
    (h : gen_attempt loads text kind p rc mr = .ok (some d)) :
    ∃ d0, force_item_fields d0 kind (chainTruthy p.preceding_lesson_content) =
      .ok d := by
  unfold gen_attempt at h
  split at h
  · cases h
  · simp only [] at h
    split at h
    · cases h
    · rename_i data heq
      split at h
      · cases h
      · split at h
        · rename_i d0 hdata
          cases hf : force_item_fields d0 kind
              (chainTruthy p.preceding_lesson_content) with
          | error e => rw [hf] at h; simp only [error_bind] at h; cases h
          | ok d4 =>
            simp only [hf, ok_bind] at h
            cases hv : validate_focus_item d4 with
            | error e => rw [hv] at h; simp only [error_bind] at h; cases h
            | ok r =>
              simp only [hv, ok_bind] at h
              split at h
              · simp [pure, Except.pure] at h
              · cases htgt : resolve_target_language (p.settings.getD [])
                    p.day_title p.user_goal with
                | error e => rw [htgt] at h; simp only [error_bind] at h; cases h
                | ok tgt =>
                  simp only [htgt, ok_bind] at h
                  split at h
                  · cases hsc : script_mismatch_check
                        (pyGetD d4 "content" (.dict [])) with
                    | error e =>
                      rw [hsc] at h; simp only [error_bind] at h; cases h
                    | ok b =>
                      simp only [hsc, ok_bind] at h
                      split at h
                      · simp [pure, Except.pure] at h
                      · simp only [pure, Except.pure, Except.ok.injEq,
                          Option.some.injEq] at h
                        subst h
                        exact ⟨d0, hf⟩
                  · simp only [pure, Except.pure, Except.ok.injEq,
                      Option.some.injEq] at h
                    subst h
                    exact ⟨d0, hf⟩
        · cases h

/-- `require_interaction` layout of every deterministic fallback item. -/
lemma create_fallback_item_ri (kind topic label lang : String) (minutes : Int)
    (domain : String) :
    pyGetD (create_fallback_item kind topic label lang minutes domain) "kind"
      PyVal.none = .str kind ∧
    ∃ vd b, pyGetD (create_fallback_item kind topic label lang minutes domain)
        "validation" PyVal.none = .dict vd ∧
      pyGetD vd "require_interaction" PyVal.none = .bool b ∧
      (b = false ↔ (kind = "content" ∨ kind = "briefing" ∨ kind = "feedback")) := by
  by_cases h1 : kind = "smart_lesson"
  · subst h1; exact ⟨rfl, _, true, rfl, rfl, by decide⟩
  by_cases h2 : kind = "content"
  · subst h2
    simp only [create_fallback_item, if_true, if_false]
    by_cases hd : pyLower (if domain = "" then "other" else domain) =
        "language_learning" ∨
      pyLower (if domain = "" then "other" else domain) = "language"
    · rw [if_pos hd]
      exact ⟨rfl, _, false, rfl, rfl, by decide⟩
    · rw [if_neg hd]
      exact ⟨rfl, _, false, rfl, rfl, by decide⟩
  by_cases h3 : kind = "quiz"
  · subst h3; exact ⟨rfl, _, true, rfl, rfl, by decide⟩
  by_cases h4 : kind = "checklist"
  · subst h4; exact ⟨rfl, _, true, rfl, rfl, by decide⟩
  by_cases h5 : kind = "upload_review"
  · subst h5; exact ⟨rfl, _, true, rfl, rfl, by decide⟩
  by_cases h6 : kind = "briefing"
  · subst h6; exact ⟨rfl, _, false, rfl, rfl, by decide⟩
  by_cases h7 : kind = "feedback"
  · subst h7; exact ⟨rfl, _, false, rfl, rfl, by decide⟩
  simp only [create_fallback_item]
  rw [if_neg h1, if_neg h2, if_neg h3, if_neg h4, if_neg h5, if_neg h6, if_neg h7]
  exact ⟨rfl, _, true, rfl, rfl,
    ⟨fun ht => Bool.noConfusion ht, fun hor => absurd hor (by simp [h2, h6, h7])⟩⟩

/-- C4: every item returned by `generate_focus_item` — accepted LLM item or
fallback — carries a boolean `validation.require_interaction` that is `false`
exactly when the item\x27s `kind` is one of the read-only kinds `content`,
`briefing`, `feedback`. -/
theorem generate_focus_item_require_interaction
    (loads : String → Option PyVal) (client : Nat → String) (p : GenParams)
    (retry_count max_retries : Nat) (d : PyDict) (n : Nat)
    (h : generate_focus_item loads client p retry_count max_retries =
      (Except.ok d, n)) :
    ∃ k vd b, pyGetD d "kind" PyVal.none = .str k ∧
      pyGetD d "validation" PyVal.none = .dict vd ∧
      pyGetD vd "require_interaction" PyVal.none = .bool b ∧
      (b = false ↔ (k = "content" ∨ k = "briefing" ∨ k = "feedback")) := by
  suffices H : ∀ fuel (q : GenParams) rc (d : PyDict) (n : Nat),
      max_retries - rc = fuel →
      generate_focus_item loads client q rc max_retries = (Except.ok d, n) →
      ∃ k vd b, pyGetD d "kind" PyVal.none = .str k ∧
        pyGetD d "validation" PyVal.none = .dict vd ∧
        pyGetD vd "require_interaction" PyVal.none = .bool b ∧
        (b = false ↔ (k = "content" ∨ k = "briefing" ∨ k = "feedback")) from
    H _ p retry_count d n rfl h
  intro fuel
  induction fuel with
  | zero =>
    intro q rc d n hf h
    rw [generate_focus_item_step] at h
    split at h
    · cases h
    · rename_i d4 hga
      simp only [Prod.mk.injEq, Except.ok.injEq] at h
      obtain ⟨rfl, -⟩ := h
      obtain ⟨d0, hforce⟩ := gen_attempt_some_shape _ _ _ _ _ _ _ hga
      obtain ⟨hk, vd, b, hv, hri, hiff⟩ := force_item_fields_ri _ _ _ _ hforce
      exact ⟨_, vd, b, hk, hv, hri, hiff⟩
    · rw [if_neg (by omega)] at h
      simp only [Prod.mk.injEq, Except.ok.injEq] at h
      obtain ⟨hd, -⟩ := h
      subst hd
      split
      · obtain ⟨hk, vd, b, hv, hri, hiff⟩ := create_fallback_item_ri
          (resolve_item_kind q.item_type q.practice_type q.domain) q.topic q.label
          (if q.lang = "" then "hu" else q.lang) q.minutes
          (if q.domain = "" then "other" else q.domain)
        exact ⟨_, vd, b,
          by rw [pyGetD_dset_ne _ _ _ _ _ (by decide)]; exact hk,
          by rw [pyGetD_dset_ne _ _ _ _ _ (by decide)]; exact hv, hri, hiff⟩
      · obtain ⟨hk, vd, b, hv, hri, hiff⟩ := create_fallback_item_ri
          (resolve_item_kind q.item_type q.practice_type q.domain) q.topic q.label
          (if q.lang = "" then "hu" else q.lang) q.minutes
          (if q.domain = "" then "other" else q.domain)
        exact ⟨_, vd, b, hk, hv, hri, hiff⟩
  | succ m ih =>
    intro q rc d n hf h
    rw [generate_focus_item_step] at h
    split at h
    · cases h
    · rename_i d4 hga
      simp only [Prod.mk.injEq, Except.ok.injEq] at h
      obtain ⟨rfl, -⟩ := h
      obtain ⟨d0, hforce⟩ := gen_attempt_some_shape _ _ _ _ _ _ _ hga
      obtain ⟨hk, vd, b, hv, hri, hiff⟩ := force_item_fields_ri _ _ _ _ hforce
      exact ⟨_, vd, b, hk, hv, hri, hiff⟩
    · by_cases hlt : rc < max_retries
      · rw [if_pos hlt] at h
        simp only [Prod.mk.injEq] at h
        obtain ⟨h1, -⟩ := h
        exact ih (guarded_params q) (rc + 1) d _ (by omega)
          (Prod.ext h1 rfl)
      · rw [if_neg hlt] at h
        simp only [Prod.mk.injEq, Except.ok.injEq] at h
        obtain ⟨hd, -⟩ := h
        subst hd
        split
        · obtain ⟨hk, vd, b, hv, hri, hiff⟩ := create_fallback_item_ri
            (resolve_item_kind q.item_type q.practice_type q.domain) q.topic
            q.label (if q.lang = "" then "hu" else q.lang) q.minutes
            (if q.domain = "" then "other" else q.domain)
          exact ⟨_, vd, b,
            by rw [pyGetD_dset_ne _ _ _ _ _ (by decide)]; exact hk,
            by rw [pyGetD_dset_ne _ _ _ _ _ (by decide)]; exact hv, hri, hiff⟩
        · obtain ⟨hk, vd, b, hv, hri, hiff⟩ := create_fallback_item_ri
            (resolve_item_kind q.item_type q.practice_type q.domain) q.topic
            q.label (if q.lang = "" then "hu" else q.lang) q.minutes
            (if q.domain = "" then "other" else q.domain)
          exact ⟨_, vd, b, hk, hv, hri, hiff⟩

/-- C4 witness: the controller run on an unparsable response with
`max_retries = 0` returns an item whose `require_interaction` flag matches
its kind. -/
theorem generate_focus_item_require_interaction_witness :
    ∃ k vd b,
      pyGetD ((generate_focus_item (fun _ => Option.none) (fun _ => "plain text")
          { item_type := "lesson", practice_type := Option.none, topic := "Fókusz",
            label := "Lecke", day_title := "", domain := "language_learning",
            level := "", lang := "hu", minutes := 5, user_goal := "",
            settings := Option.none, preceding_lesson_content := Option.none }
          0 0).1.toOption.getD []) "kind" PyVal.none = .str k ∧
      pyGetD ((generate_focus_item (fun _ => Option.none) (fun _ => "plain text")
          { item_type := "lesson", practice_type := Option.none, topic := "Fókusz",
            label := "Lecke", day_title := "", domain := "language_learning",
            level := "", lang := "hu", minutes := 5, user_goal := "",
            settings := Option.none, preceding_lesson_content := Option.none }
          0 0).1.toOption.getD []) "validation" PyVal.none = .dict vd ∧
      pyGetD vd "require_interaction" PyVal.none = .bool b ∧
      (b = false ↔ (k = "content" ∨ k = "briefing" ∨ k = "feedback")) :=
  generate_focus_item_require_interaction (fun _ => Option.none)
    (fun _ => "plain text")
    { item_type := "lesson", practice_type := Option.none, topic := "Fókusz",
      label := "Lecke", day_title := "", domain := "language_learning",
      level := "", lang := "hu", minutes := 5, user_goal := "",
      settings := Option.none, preceding_lesson_content := Option.none }
    0 0 _ 1 (by unfold generate_focus_item; rfl)



/-! ## C10 — the validator applies no kind-specific checks to `writing` -/

/-- C10 (amended): a `writing` item carrying the seven required top-level
fields, whose forbidden-pattern scan succeeds with no hit, and whose
`validation.require_interaction` is truthy, is accepted as `(true, "")` —
the kind-specific chain has no `writing` branch, so the `content` payload
(any dict, even empty) is never inspected beyond the forbidden scan. -/
theorem validate_focus_item_writing_acceptance
    (item : PyDict) (fl : List PyVal) (ri : PyVal)
    (hkind : pyGetD item "kind" PyVal.none = .str "writing")
    (hreq : ∀ f ∈ REQUIRED_FIELDS, hasKey item f = true)
    (hfl : forbidden_check_fields item = .ok fl)
    (hscan : scanForbidden fl = .ok Option.none)
    (hri : mGet (pyGetD item "validation" (.dict [])) "require_interaction"
      PyVal.none = .ok ri)
    (hritrue : pyTruthy ri = true) :
    validate_focus_item item = .ok (true, "") := by
  unfold validate_focus_item
  rw [hkind]
  simp only [ok_bind, error_bind]
  rw [show (if ("writing" : String) ∈ VALID_KINDS then some "writing"
      else (Option.none : Option String)) = some "writing" from by decide]
  simp only []
  rw [if_pos (by decide : ("writing" : String) ≠ "content")]
  simp only [hfl, ok_bind, hscan]
  have hfind : REQUIRED_FIELDS.find? (fun f => decide (¬ hasKey item f = true)) =
      Option.none :=
    List.find?_eq_none.mpr (fun f hf => by simp [hreq f hf])
  rw [hfind]
  rw [if_pos (by decide :
    ("writing" : String) ∉ (["content", "briefing", "feedback"] : List String))]
  simp only [hri, ok_bind, hritrue, Bool.not_true, Bool.false_eq_true,
    if_false]
  rfl

/-- C10 witness: a bare writing item with empty dict content is accepted. -/
theorem validate_focus_item_writing_acceptance_witness :
    validate_focus_item
      [("schema_version", .str "1.0"), ("kind", .str "writing"),
       ("idempotency_key", .str "w1"), ("title", .str "Írás"),
       ("instructions_md", .str "Írj pár mondatot."),
       ("content", .dict []),
       ("validation", .dict [("require_interaction", .bool true)])] =
      .ok (true, "") :=
  validate_focus_item_writing_acceptance
    [("schema_version", .str "1.0"), ("kind", .str "writing"),
     ("idempotency_key", .str "w1"), ("title", .str "Írás"),
     ("instructions_md", .str "Írj pár mondatot."),
     ("content", .dict []),
     ("validation", .dict [("require_interaction", .bool true)])]
    [.str "Írj pár mondatot.", .str "Írás", .str "", .str "", .str "", .str ""]
    (.bool true) (by rfl) (by decide) (by rfl) (by rfl) (by rfl) (by rfl)

/-- C10 counterexample: the validator is not indifferent to the `content`
shape for `writing` — a string payload makes the forbidden scan call
`content.get`, which raises `AttributeError` instead of accepting the item. -/
theorem validate_focus_item_writing_content_string_raises :
    validate_focus_item
      [("schema_version", .str "1.0"), ("kind", .str "writing"),
       ("idempotency_key", .str "w1"), ("title", .str "Írás"),
       ("instructions_md", .str "Írj pár mondatot."),
       ("content", .str "szabad szöveg"),
       ("validation", .dict [("require_interaction", .bool true)])] =
      .error .attributeError := by
  rfl



/-! ## C5 — per-question guarantees of accepted quiz items -/

lemma distinctCount_le_length (l : List String) : distinctCount l ≤ l.length := by
  induction l with
  | nil => simp [distinctCount]
  | cons x xs ih =>
    simp only [distinctCount, List.length_cons]
    split <;> omega

lemma distinctCount_eq_length_iff (l : List String) :
    distinctCount l = l.length ↔ l.Nodup := by
  induction l with
  | nil => simp [distinctCount]
  | cons x xs ih =>
    simp only [distinctCount, List.length_cons, List.nodup_cons]
    have hle := distinctCount_le_length xs
    by_cases hx : x ∈ xs
    · rw [if_pos hx]
      constructor
      · intro he; exact absurd he (by omega)
      · rintro ⟨hx2, -⟩; exact absurd hx hx2
    · rw [if_neg hx]
      constructor
      · intro he; exact ⟨hx, ih.mp (by omega)⟩
      · rintro ⟨-, hnd⟩
        have h2 := ih.mpr hnd
        omega

/-- The `correct_index`-else-`answer_index` resolution of the quiz loop. -/
def ciResolve (q : PyVal) : Except PyErr PyVal := do
  let ci0 ← mGet q "correct_index" PyVal.none
  match ci0 with
  | .none => mGet q "answer_index" PyVal.none
  | _ => pure ci0

/-- What `_validate_focus_item` guarantees for each question of an accepted
new-format quiz: exactly 3 options, whose truthy entries normalize (casefold
+ diacritic strip + trim) to pairwise distinct non-placeholder strings, a
resolved index that passes the range check against the 3 options, truthy
question text (`q` or `question`) and a truthy explanation. -/
def QuestionAccepted (q : PyVal) : Prop :=
  ∃ opts elems normalized ci qa qb ex,
    mGet q "options" (.list []) = .ok opts ∧
    pyLen opts = .ok 3 ∧
    pyIter opts = .ok elems ∧
    (elems.filter pyTruthy).mapM normalize_for_match_v = .ok normalized ∧
    (∀ o ∈ normalized, o ∉ PLACEHOLDER_OPTIONS) ∧
    normalized.Nodup ∧
    ciResolve q = .ok ci ∧
    indexInvalid ci 3 = .ok false ∧
    mGet q "q" PyVal.none = .ok qa ∧
    mGet q "question" PyVal.none = .ok qb ∧
    pyTruthy (if pyTruthy qa then qa else qb) = true ∧
    mGet q "explanation" PyVal.none = .ok ex ∧
    pyTruthy ex = true

lemma options_invalid_false (opts : PyVal)
    (h : options_invalid opts = .ok false) :
    pyLen opts = .ok 3 ∧
    ∃ elems normalized, pyIter opts = .ok elems ∧
      (elems.filter pyTruthy).mapM normalize_for_match_v = .ok normalized ∧
      (∀ o ∈ normalized, o ∉ PLACEHOLDER_OPTIONS) ∧ normalized.Nodup := by
  unfold options_invalid at h
  split at h
  · simp [pure, Except.pure] at h
  · cases hn : pyLen opts with
    | error e => rw [hn] at h; simp only [error_bind] at h; cases h
    | ok n =>
      simp only [hn, ok_bind] at h
      split at h
      · simp [pure, Except.pure] at h
      · rename_i hn3
        cases hel : pyIter opts with
        | error e => rw [hel] at h; simp only [error_bind] at h; cases h
        | ok elems =>
          simp only [hel, ok_bind] at h
          cases hnm : (elems.filter pyTruthy).mapM normalize_for_match_v with
          | error e => rw [hnm] at h; simp only [error_bind] at h; cases h
          | ok normalized =>
            simp only [hnm, ok_bind] at h
            split at h
            · simp [pure, Except.pure] at h
            · split at h
              · simp [pure, Except.pure] at h
              · rename_i hph hdc
                have hn3e : n = 3 := by omega
                subst hn3e
                refine ⟨rfl, elems, normalized, rfl, hnm, ?_, ?_⟩
                · intro o ho
                  simp only [List.any_eq_true, decide_eq_true_eq] at hph
                  push_neg at hph
                  exact hph o ho
                · exact (distinctCount_eq_length_iff normalized).mp (by omega)

/-- The tail of the per-question loop once the index candidate is fixed. -/
lemma checkQuestions_rest_spec (q0 : PyVal) (rest : List PyVal) (i : Nat)
    (opts ci : PyVal)
    (h : (do
      let n ← pyLen opts
      let bi ← indexInvalid ci n
      if bi = true then
        pure (false, "Question " ++ toString i ++ " has invalid correct_index")
      else do
        let qa ← mGet q0 "q" PyVal.none
        let qb ← mGet q0 "question" PyVal.none
        if ¬ pyTruthy (if pyTruthy qa then qa else qb) = true then
          pure (false, "Question " ++ toString i ++ " missing question text")
        else do
          let ex ← mGet q0 "explanation" PyVal.none
          if ¬ pyTruthy ex = true then
            pure (false, "Question " ++ toString i ++ " missing explanation")
          else checkQuestions rest (i + 1)) =
      (.ok (true, "") : Except PyErr (Bool × String))) :
    (∃ n, pyLen opts = .ok n ∧ indexInvalid ci n = .ok false) ∧
    (∃ qa qb, mGet q0 "q" PyVal.none = .ok qa ∧
      mGet q0 "question" PyVal.none = .ok qb ∧
      pyTruthy (if pyTruthy qa then qa else qb) = true) ∧
    (∃ ex, mGet q0 "explanation" PyVal.none = .ok ex ∧ pyTruthy ex = true) ∧
    checkQuestions rest (i + 1) = .ok (true, "") := by
  cases hn : pyLen opts with
  | error e => rw [hn] at h; simp only [error_bind] at h; cases h
  | ok n =>
    simp only [hn, ok_bind] at h
    cases hii : indexInvalid ci n with
    | error e => rw [hii] at h; simp only [error_bind] at h; cases h
    | ok bi =>
      simp only [hii, ok_bind] at h
      cases bi with
      | true => simp [pure, Except.pure] at h
      | false =>
        simp only [Bool.false_eq_true, if_false] at h
        cases hqa : mGet q0 "q" PyVal.none with
        | error e => rw [hqa] at h; simp only [error_bind] at h; cases h
        | ok qa =>
          simp only [hqa, ok_bind] at h
          cases hqb : mGet q0 "question" PyVal.none with
          | error e => rw [hqb] at h; simp only [error_bind] at h; cases h
          | ok qb =>
            simp only [hqb, ok_bind] at h
            by_cases hqt : pyTruthy (if pyTruthy qa then qa else qb) = true
            · rw [if_neg (fun hc => hc hqt)] at h
              cases hex : mGet q0 "explanation" PyVal.none with
              | error e => rw [hex] at h; simp only [error_bind] at h; cases h
              | ok ex =>
                simp only [hex, ok_bind] at h
                by_cases hext : pyTruthy ex = true
                · rw [if_neg (fun hc => hc hext)] at h
                  exact ⟨⟨n, rfl, hii⟩, ⟨qa, qb, rfl, rfl, hqt⟩,
                    ⟨ex, rfl, hext⟩, h⟩
                · rw [if_pos hext] at h
                  simp [pure, Except.pure] at h
            · rw [if_pos hqt] at h
              simp [pure, Except.pure] at h

lemma checkQuestions_head_accept (q0 : PyVal) (opts ci qa qb ex : PyVal)
    (n : Nat)
    (ho : mGet q0 "options" (.list []) = .ok opts)
    (hoi : options_invalid opts = .ok false)
    (hciR : ciResolve q0 = .ok ci)
    (hn : pyLen opts = .ok n)
    (hii : indexInvalid ci n = .ok false)
    (hqa : mGet q0 "q" PyVal.none = .ok qa)
    (hqb : mGet q0 "question" PyVal.none = .ok qb)
    (hqt : pyTruthy (if pyTruthy qa then qa else qb) = true)
    (hex : mGet q0 "explanation" PyVal.none = .ok ex)
    (hext : pyTruthy ex = true) :
    QuestionAccepted q0 := by
  obtain ⟨hlen, elems, normalized, hel, hnm, hph, hnd⟩ :=
    options_invalid_false opts hoi
  have hn3 : n = 3 := by
    rw [hn] at hlen
    exact Except.ok.inj hlen
  subst hn3
  exact ⟨opts, elems, normalized, ci, qa, qb, ex, ho, hlen, hel, hnm, hph,
    hnd, hciR, hii, hqa, hqb, hqt, hex, hext⟩

lemma checkQuestions_accepts (ql : List PyVal) (i : Nat)
    (h : checkQuestions ql i = .ok (true, "")) :
    ∀ q ∈ ql, QuestionAccepted q := by
  induction ql generalizing i with
  | nil => intro q hq; cases hq
  | cons q0 rest ih =>
    intro q hq
    unfold checkQuestions at h
    cases ho : mGet q0 "options" (.list []) with
    | error e => rw [ho] at h; simp only [error_bind] at h; cases h
    | ok opts =>
      simp only [ho, ok_bind] at h
      cases hoi : options_invalid opts with
      | error e => rw [hoi] at h; simp only [error_bind] at h; cases h
      | ok b =>
        simp only [hoi, ok_bind] at h
        cases b with
        | true => simp [pure, Except.pure] at h
        | false =>
          simp only [Bool.false_eq_true, if_false] at h
          cases hci0 : mGet q0 "correct_index" PyVal.none with
          | error e => rw [hci0] at h; simp only [error_bind] at h; cases h
          | ok ci0 =>
            simp only [hci0, ok_bind] at h
            cases ci0 with
            | none =>
              cases hans : mGet q0 "answer_index" PyVal.none with
              | error e => rw [hans] at h; simp only [error_bind] at h; cases h
              | ok ci =>
                simp only [hans, ok_bind] at h
                have hciR : ciResolve q0 = .ok ci := by
                  unfold ciResolve
                  rw [hci0]
                  simp only [ok_bind]
                  exact hans
                obtain ⟨⟨n, hn, hii⟩, ⟨qa, qb, hqa, hqb, hqt⟩,
                  ⟨ex, hex, hext⟩, hrest⟩ :=
                  checkQuestions_rest_spec q0 rest i opts ci h
                cases hq with
                | head => exact checkQuestions_head_accept q0 opts ci qa qb ex n ho hoi hciR hn hii hqa hqb hqt hex hext
                | tail _ hmem => exact ih (i + 1) hrest q hmem
            | bool b2 =>
              simp only [pure, Except.pure, ok_bind] at h
              have hciR : ciResolve q0 = .ok (.bool b2) := by
                unfold ciResolve
                rw [hci0]
                simp only [ok_bind]
                rfl
              obtain ⟨⟨n, hn, hii⟩, ⟨qa, qb, hqa, hqb, hqt⟩,
                ⟨ex, hex, hext⟩, hrest⟩ :=
                checkQuestions_rest_spec q0 rest i opts (.bool b2) h
              cases hq with
              | head => exact checkQuestions_head_accept q0 opts (.bool b2) qa qb ex n ho hoi hciR hn hii hqa hqb hqt hex hext
              | tail _ hmem => exact ih (i + 1) hrest q hmem
            | int i2 =>
              simp only [pure, Except.pure, ok_bind] at h
              have hciR : ciResolve q0 = .ok (.int i2) := by
                unfold ciResolve
                rw [hci0]
                simp only [ok_bind]
                rfl
              obtain ⟨⟨n, hn, hii⟩, ⟨qa, qb, hqa, hqb, hqt⟩,
                ⟨ex, hex, hext⟩, hrest⟩ :=
                checkQuestions_rest_spec q0 rest i opts (.int i2) h
              cases hq with
              | head => exact checkQuestions_head_accept q0 opts (.int i2) qa qb ex n ho hoi hciR hn hii hqa hqb hqt hex hext
              | tail _ hmem => exact ih (i + 1) hrest q hmem
            | str s2 =>
              simp only [pure, Except.pure, ok_bind] at h
              have hciR : ciResolve q0 = .ok (.str s2) := by
                unfold ciResolve
                rw [hci0]
                simp only [ok_bind]
                rfl
              obtain ⟨⟨n, hn, hii⟩, ⟨qa, qb, hqa, hqb, hqt⟩,
                ⟨ex, hex, hext⟩, hrest⟩ :=
                checkQuestions_rest_spec q0 rest i opts (.str s2) h
              cases hq with
              | head => exact checkQuestions_head_accept q0 opts (.str s2) qa qb ex n ho hoi hciR hn hii hqa hqb hqt hex hext
              | tail _ hmem => exact ih (i + 1) hrest q hmem
            | list l2 =>
              simp only [pure, Except.pure, ok_bind] at h
              have hciR : ciResolve q0 = .ok (.list l2) := by
                unfold ciResolve
                rw [hci0]
                simp only [ok_bind]
                rfl
              obtain ⟨⟨n, hn, hii⟩, ⟨qa, qb, hqa, hqb, hqt⟩,
                ⟨ex, hex, hext⟩, hrest⟩ :=
                checkQuestions_rest_spec q0 rest i opts (.list l2) h
              cases hq with
              | head => exact checkQuestions_head_accept q0 opts (.list l2) qa qb ex n ho hoi hciR hn hii hqa hqb hqt hex hext
              | tail _ hmem => exact ih (i + 1) hrest q hmem
            | dict d2 =>
              simp only [pure, Except.pure, ok_bind] at h
              have hciR : ciResolve q0 = .ok (.dict d2) := by
                unfold ciResolve
                rw [hci0]
                simp only [ok_bind]
                rfl
              obtain ⟨⟨n, hn, hii⟩, ⟨qa, qb, hqa, hqb, hqt⟩,
                ⟨ex, hex, hext⟩, hrest⟩ :=
                checkQuestions_rest_spec q0 rest i opts (.dict d2) h
              cases hq with
              | head => exact checkQuestions_head_accept q0 opts (.dict d2) qa qb ex n ho hoi hciR hn hii hqa hqb hqt hex hext
              | tail _ hmem => exact ih (i + 1) hrest q hmem

/-- C5 (amended): a quiz item accepted by the validator **whose `questions`
list is truthy** (the new format) has 4–6 questions, each satisfying the
per-question option/index/text/explanation rules (`QuestionAccepted`); the
legacy `choices` format bypasses these checks entirely. -/
theorem validate_focus_item_quiz_question_rules
    (item : PyDict) (ql : List PyVal)
    (hkind : pyGetD item "kind" PyVal.none = .str "quiz")
    (hq : mGet (pyGetD item "content" (.dict [])) "questions" (.list []) =
      .ok (.list ql))
    (hqt : pyTruthy (.list ql) = true)
    (hacc : validate_focus_item item = .ok (true, "")) :
    (4 ≤ ql.length ∧ ql.length ≤ 6) ∧ ∀ q ∈ ql, QuestionAccepted q := by
  unfold validate_focus_item at hacc
  rw [hkind] at hacc
  simp only [ok_bind, error_bind] at hacc
  rw [show (if ("quiz" : String) ∈ VALID_KINDS then some "quiz"
      else (Option.none : Option String)) = some "quiz" from by decide] at hacc
  simp only [] at hacc
  rw [if_pos (by decide : ("quiz" : String) ≠ "content")] at hacc
  cases hfb : forbidden_check_fields item with
  | error e => rw [hfb] at hacc; simp only [error_bind] at hacc; cases hacc
  | ok fl =>
    simp only [hfb, ok_bind] at hacc
    cases hsc : scanForbidden fl with
    | error e => rw [hsc] at hacc; simp only [error_bind] at hacc; cases hacc
    | ok fo =>
      simp only [hsc, ok_bind] at hacc
      cases fo with
      | some pat => simp [pure, Except.pure] at hacc
      | none =>
        simp only [] at hacc
        cases hfind : List.find? (fun f => decide (¬ hasKey item f = true))
            REQUIRED_FIELDS with
        | some f => rw [hfind] at hacc; simp [pure, Except.pure] at hacc
        | none =>
          rw [hfind] at hacc
          simp only [] at hacc
          rw [if_pos (by decide : ("quiz" : String) ∉
            (["content", "briefing", "feedback"] : List String))] at hacc
          cases hri : mGet (pyGetD item "validation" (.dict []))
              "require_interaction" PyVal.none with
          | error e =>
            rw [hri] at hacc; simp only [error_bind] at hacc; cases hacc
          | ok ri =>
            simp only [hri, ok_bind, pure, Except.pure] at hacc
            cases hrt : pyTruthy ri with
            | false => simp [hrt] at hacc
            | true =>
              simp only [hrt, Bool.not_true, Bool.false_eq_true, if_false]
                at hacc
              unfold validate_kind_specific at hacc
              rw [if_pos rfl] at hacc
              unfold validate_quiz at hacc
              simp only [hq, ok_bind] at hacc
              rw [if_pos hqt] at hacc
              simp only [pyLen, ok_bind] at hacc
              split at hacc
              · simp [pure, Except.pure] at hacc
              · rename_i hcount
                simp only [pyIter, ok_bind] at hacc
                exact ⟨⟨by omega, by omega⟩, checkQuestions_accepts ql 1 hacc⟩

/-- Strip a `PyVal` to its list payload (empty for non-lists). -/
def toListD : PyVal → List PyVal
  | .list l => l
  | _ => []

/-- A quiz whose first question repeats `Alma` among its options (duplicate
after diacritic-insensitive normalization). -/
def almaQ : PyVal :=
  .dict [("q", .str "Melyik gyümölcs?"),
         ("options", .list [.str "Alma", .str "Banán", .str "Alma"]),
         ("correct_index", .int 0),
         ("explanation", .str "Mert.")]

def almaQuizItem : PyDict :=
  [("schema_version", .str "1.0"), ("kind", .str "quiz"),
   ("idempotency_key", .str "a1"), ("title", .str "Kvíz"),
   ("instructions_md", .str "Válassz."),
   ("content", .dict [("questions", .list [almaQ, almaQ, almaQ, almaQ])]),
   ("validation", .dict [("require_interaction", .bool true)])]

/-- C5 witness: the deterministic fallback quiz is accepted and satisfies
every per-question rule, and the duplicate-option quiz
`["Alma", "Banán", "Alma"]` is rejected with the question-1 message. -/
theorem validate_focus_item_quiz_question_rules_witness :
    ((4 ≤ (toListD ((mGet (pyGetD (create_fallback_item "quiz" "Idő" "Kvíz"
          "hu" 5 "other") "content" (.dict [])) "questions"
          (.list [])).toOption.getD PyVal.none)).length ∧
      (toListD ((mGet (pyGetD (create_fallback_item "quiz" "Idő" "Kvíz"
          "hu" 5 "other") "content" (.dict [])) "questions"
          (.list [])).toOption.getD PyVal.none)).length ≤ 6) ∧
     ∀ q ∈ toListD ((mGet (pyGetD (create_fallback_item "quiz" "Idő" "Kvíz"
          "hu" 5 "other") "content" (.dict [])) "questions"
          (.list [])).toOption.getD PyVal.none), QuestionAccepted q) ∧
    validate_focus_item almaQuizItem =
      .ok (false, "Question 1 has invalid options") :=
  ⟨validate_focus_item_quiz_question_rules
      (create_fallback_item "quiz" "Idő" "Kvíz" "hu" 5 "other")
      (toListD ((mGet (pyGetD (create_fallback_item "quiz" "Idő" "Kvíz"
          "hu" 5 "other") "content" (.dict [])) "questions"
          (.list [])).toOption.getD PyVal.none))
      (by rfl) (by rfl) (by rfl) (by rfl),
   by rfl⟩

def legacyQuizItem : PyDict :=
  [("schema_version", .str "1.0"), ("kind", .str "quiz"),
   ("idempotency_key", .str "l1"), ("title", .str "Kvíz"),
   ("instructions_md", .str "Válassz."),
   ("content", .dict [("choices", .list [.str "Egy", .str "Kettő", .str "Három"]),
                      ("correct_index", .int 0)]),
   ("validation", .dict [("require_interaction", .bool true)])]

/-- C5 counterexample: the legacy `choices` format is accepted with **zero**
questions, so an accepted quiz item need not have 4–6 questions with
3 options each — the claimed rules only govern the new `questions` format. -/
theorem validate_focus_item_quiz_legacy_choices_escape :
    validate_focus_item legacyQuizItem = .ok (true, "") ∧
    mGet (pyGetD legacyQuizItem "content" (.dict [])) "questions" (.list []) =
      .ok (.list []) :=
  ⟨rfl, rfl⟩



/-! ## C3 — the validator is not exception-free on malformed field types -/

/-- A syntactically well-keyed quiz item whose `content` is a string. -/
def malformedContentItem : PyDict :=
  [("schema_version", .str "1.0"), ("kind", .str "quiz"),
   ("idempotency_key", .str "m1"), ("title", .str "Kvíz"),
   ("instructions_md", .str "Válassz."),
   ("content", .str "nem objektum"),
   ("validation", .dict [("require_interaction", .bool true)])]

/-- A quiz item whose `validation` is a string. -/
def malformedValidationItem : PyDict :=
  [("schema_version", .str "1.0"), ("kind", .str "quiz"),
   ("idempotency_key", .str "m2"), ("title", .str "Kvíz"),
   ("instructions_md", .str "Válassz."),
   ("content", .dict [("questions", .list [])]),
   ("validation", .str "igen")]

/-- C3: `_validate_focus_item` is not total on dict inputs — a string-typed
`content` makes the forbidden-pattern scan call `content.get` and raise
`AttributeError`, and a string-typed `validation` makes the
`require_interaction` read raise; moreover the raise escapes
`generate_focus_item` (which calls the validator outside any handler), so an
LLM response parsing to such a dict crashes the controller after one attempt
with retries still available, instead of being absorbed into the
retry/fallback path. -/
theorem validate_focus_item_raises_on_malformed_types :
    validate_focus_item malformedContentItem = .error .attributeError ∧
    validate_focus_item malformedValidationItem = .error .attributeError ∧
    generate_focus_item
      (fun _ => some (.dict [("content", .str "oops")]))
      (fun _ => "\x7b\"content\": \"oops\"\x7d")
      { item_type := "quiz", practice_type := Option.none, topic := "Téma",
        label := "Kvíz", day_title := "", domain := "fitness", level := "",
        lang := "hu", minutes := 5, user_goal := "", settings := Option.none,
        preceding_lesson_content := Option.none }
      0 2 =
      (.error .attributeError, 1) :=
  ⟨rfl, rfl, by unfold generate_focus_item; rfl⟩



/-! ## C7 — the script-mismatch re-check retries at most `min 1 max_retries`
times -/

/-- A generation attempt for a structurally valid `content` item when the
script-mismatch gate is closed (wrong language, Latin target, or the
`retry_count < min 1 max_retries` budget exhausted): the item is accepted
without the ASCII re-check. -/
lemma gen_attempt_content_ok (loads : String → Option PyVal) (text : String)
    (q : GenParams) (d e : PyDict) (rc mr : Nat) (tgt : String)
    (htext : is_llm_error text = false)
    (hex : extract_json_object loads (strip_json_fences text) =
      some (.dict d))
    (hd : pyTruthy (.dict d) = true)
    (hff : force_item_fields d "content"
      (chainTruthy q.preceding_lesson_content) = .ok e)
    (hv : validate_focus_item e = .ok (true, ""))
    (htgt : resolve_target_language (q.settings.getD []) q.day_title
      q.user_goal = .ok tgt)
    (hgate : ¬ (tgt ≠ "" ∧ is_nonlatin_language tgt = true ∧
      ("content" : String) = "content" ∧ rc < min 1 mr)) :
    gen_attempt loads text "content" q rc mr = .ok (some e) := by
  unfold gen_attempt
  rw [if_neg (by simp [htext])]
  simp only []
  rw [hex]
  simp only []
  rw [if_neg (by simp [hd])]
  simp only [hff, ok_bind, hv]
  rw [if_neg (by simp)]
  simp only [htgt, ok_bind]
  rw [if_neg (by simpa using hgate)]
  rfl

/-- A generation attempt for a structurally valid `content` item when the
script-mismatch gate is open and the ASCII check fires: the item is rejected
(`none`), feeding the retry branch. -/
lemma gen_attempt_content_mismatch (loads : String → Option PyVal)
    (text : String) (q : GenParams) (d e : PyDict) (rc mr : Nat) (tgt : String)
    (htext : is_llm_error text = false)
    (hex : extract_json_object loads (strip_json_fences text) =
      some (.dict d))
    (hd : pyTruthy (.dict d) = true)
    (hff : force_item_fields d "content"
      (chainTruthy q.preceding_lesson_content) = .ok e)
    (hv : validate_focus_item e = .ok (true, ""))
    (htgt : resolve_target_language (q.settings.getD []) q.day_title
      q.user_goal = .ok tgt)
    (hgate : tgt ≠ "" ∧ is_nonlatin_language tgt = true ∧
      ("content" : String) = "content" ∧ rc < min 1 mr)
    (hmm : script_mismatch_check (pyGetD e "content" (.dict [])) = .ok true) :
    gen_attempt loads text "content" q rc mr = .ok Option.none := by
  unfold gen_attempt
  rw [if_neg (by simp [htext])]
  simp only []
  rw [hex]
  simp only []
  rw [if_neg (by simp [hd])]
  simp only [hff, ok_bind, hv]
  rw [if_neg (by simp)]
  simp only [htgt, ok_bind]
  rw [if_pos (by simpa using hgate)]
  simp only [hmm, ok_bind]
  rfl

/-- C7: for a `content` item whose resolved target language is in the fixed
non-Latin set and whose accepted payload fails the ASCII script check, the
item is regenerated exactly once more, bounded by `min 1 max_retries`: with
`max_retries = 0` the first structurally valid item is returned after one
attempt with no script-mismatch retry, and with `max_retries = 1` the
mismatching first item is rejected and the second attempt\x27s item is
returned after exactly two attempts (the gate being closed at
`retry_count = 1`). -/
theorem generate_focus_item_script_mismatch_retry
    (loads : String → Option PyVal) (client : Nat → String) (p : GenParams)
    (d0 d1 e0 e1 : PyDict) (tgt : String)
    (hkind : resolve_item_kind p.item_type p.practice_type p.domain =
      "content")
    (hkind1 : resolve_item_kind (guarded_params p).item_type
      (guarded_params p).practice_type (guarded_params p).domain = "content")
    (htext0 : is_llm_error (client 0) = false)
    (htext1 : is_llm_error (client 1) = false)
    (hex0 : extract_json_object loads (strip_json_fences (client 0)) =
      some (.dict d0))
    (hex1 : extract_json_object loads (strip_json_fences (client 1)) =
      some (.dict d1))
    (hd0 : pyTruthy (.dict d0) = true) (hd1 : pyTruthy (.dict d1) = true)
    (hff0 : force_item_fields d0 "content"
      (chainTruthy p.preceding_lesson_content) = .ok e0)
    (hff1 : force_item_fields d1 "content"
      (chainTruthy p.preceding_lesson_content) = .ok e1)
    (hv0 : validate_focus_item e0 = .ok (true, ""))
    (hv1 : validate_focus_item e1 = .ok (true, ""))
    (htgt : resolve_target_language (p.settings.getD []) p.day_title
      p.user_goal = .ok tgt)
    (htne : tgt ≠ "") (hnl : is_nonlatin_language tgt = true)
    (hmm0 : script_mismatch_check (pyGetD e0 "content" (.dict [])) =
      .ok true) :
    generate_focus_item loads client p 0 0 = (.ok e0, 1) ∧
    generate_focus_item loads client p 0 1 = (.ok e1, 2) := by
  constructor
  · have hga : gen_attempt loads (client 0) "content" (guarded_params p) 0 0 =
        .ok (some e0) :=
      gen_attempt_content_ok loads (client 0) (guarded_params p) d0 e0 0 0 tgt
        htext0 hex0 hd0 hff0 hv0 htgt (fun hc => absurd hc.2.2.2 (by decide))
    rw [generate_focus_item_step, hkind, hga]
  · have hgaB : gen_attempt loads (client 0) "content" (guarded_params p)
        0 1 = .ok Option.none :=
      gen_attempt_content_mismatch loads (client 0) (guarded_params p) d0 e0
        0 1 tgt htext0 hex0 hd0 hff0 hv0 htgt ⟨htne, hnl, rfl, by decide⟩ hmm0
    have hgaC : gen_attempt loads (client 1) "content"
        (guarded_params (guarded_params p)) 1 1 = .ok (some e1) :=
      gen_attempt_content_ok loads (client 1) (guarded_params (guarded_params p))
        d1 e1 1 1 tgt htext1 hex1 hd1 hff1 hv1 htgt
        (fun hc => absurd hc.2.2.2 (by decide))
    rw [generate_focus_item_step, hkind, hgaB]
    simp only []
    rw [if_pos (by decide : (0 : Nat) < 1)]
    rw [generate_focus_item_step, hkind1, hgaC]

/-- A structurally valid Korean starter lesson whose vocabulary words are all
pure ASCII romanizations. -/
def koreanItem : PyDict :=
  [("schema_version", .str "1.0"), ("idempotency_key", .str "k1"),
   ("title", .str "Korean greetings"),
   ("instructions_md", .str "Read the lesson."),
   ("content", .dict
     [("content_type", .str "language_lesson"),
      ("introduction", .str ("This short lesson teaches the basic Korean " ++
        "greetings you will use every day in simple conversations with " ++
        "new people.")),
      ("vocabulary_table", .list
        [.dict [("word", .str "annyeong"), ("translation", .str "szia")],
         .dict [("word", .str "annyeonghaseyo"),
                ("translation", .str "jó napot")],
         .dict [("word", .str "kamsahamnida"),
                ("translation", .str "köszönöm")]]),
      ("grammar_explanation", .dict
        [("explanation", .str "Use -yo endings for polite speech."),
         ("examples", .list
           [.dict [("target", .str "Annyeonghaseyo."),
                   ("hungarian", .str "Jó napot.")]])]),
      ("dialogues", .list
        [.dict [("lines", .list
          [.dict [("speaker", .str "A"), ("text", .str "Annyeong!")],
           .dict [("speaker", .str "B"), ("text", .str "Annyeong!")]])]])])]

def koreanParams : GenParams :=
  { item_type := "lesson", practice_type := Option.none,
    topic := "Koreai köszönések", label := "Lecke", day_title := "Nap 1",
    domain := "language_learning", level := "beginner", lang := "hu",
    minutes := 8, user_goal := "",
    settings := some [("target_language", .str "korean")],
    preceding_lesson_content := Option.none }

def koreanForced : PyDict :=
  (force_item_fields koreanItem "content" false).toOption.getD []

set_option maxRecDepth 8192 in
/-- C7 witness: with a Korean target and an all-ASCII vocabulary table, the
controller accepts after 1 attempt at `max_retries = 0` and after exactly 2
attempts at `max_retries = 1`. -/
theorem generate_focus_item_script_mismatch_retry_witness :
    generate_focus_item (fun _ => some (.dict koreanItem))
      (fun _ => "\x7b\"k\": 1\x7d") koreanParams 0 0 = (.ok koreanForced, 1) ∧
    generate_focus_item (fun _ => some (.dict koreanItem))
      (fun _ => "\x7b\"k\": 1\x7d") koreanParams 0 1 = (.ok koreanForced, 2) :=
  generate_focus_item_script_mismatch_retry
    (fun _ => some (.dict koreanItem)) (fun _ => "\x7b\"k\": 1\x7d")
    koreanParams koreanItem koreanItem koreanForced koreanForced "korean"
    rfl rfl rfl rfl rfl rfl rfl rfl rfl rfl rfl rfl rfl (by decide)
    (by decide) rfl


end PUMi
